import Mathlib

/-!
Shallow embedding of the ts-nvml binding and marshalling core.

The embedding mirrors, definition by definition, the TypeScript sources:
`src/types/enums.ts` and the Result module (`NvmlError`, `Result`, `ok`,
`err`, `errFromReturn`, `unwrap`, `unwrapOr`, `map`, `andThen`, `isSuccess`,
`nvmlErrorString`), `src/bindings/library.ts` (library handle manager),
the lazily cached koffi bindings (`src/bindings/*.ts`), `src/device.ts`
(the `Device` class) and `src/nvml.ts` (the `Nvml` namespace).

Modelling conventions:
- The native NVML library is an oracle: a `Native` structure holding, for
  every native entry point, the value the call would produce.  Device
  handles are natural numbers.
- Every native invocation is logged: each binding wrapper appends the
  native symbol's name to an explicit `Log`.  "No native call happens" is
  the statement that the log is unchanged and the output does not depend
  on the oracle; the log length also serves as the monotone clock that
  `new Date()` reads when `getSystemSnapshot` stamps its timestamp.
- TypeScript exceptions (`throw`) are `Except.error`; functions that
  cannot throw keep their plain `Result` type, exactly as in the source.
- JavaScript `number` holding a possibly fractional value (watts) is `ℚ`;
  integral `number`s and `bigint`s are `Nat`.
-/

namespace TsNvml

/-! Return codes and the error-message table, from `src/types/enums.ts`. -/

def SUCCESS : Nat := 0

def ERROR_UNINITIALIZED : Nat := 1

def ERROR_NOT_SUPPORTED : Nat := 3

/-- Mirror of `nvmlErrorString` in `src/types/enums.ts`: the total
code-to-message table with a fallback for unmapped codes. -/
def nvmlErrorString (ret : Nat) : String :=
  match ret with
  | 0 => "Success"
  | 1 => "NVML was not initialized"
  | 2 => "Invalid argument"
  | 3 => "Operation not supported"
  | 4 => "Insufficient permissions"
  | 5 => "NVML already initialized"
  | 6 => "Not found"
  | 7 => "Insufficient buffer size"
  | 8 => "Insufficient power"
  | 9 => "NVIDIA driver not loaded"
  | 10 => "Operation timed out"
  | 11 => "Interrupt request issue"
  | 12 => "NVML library not found"
  | 13 => "Function not found"
  | 14 => "InfoROM corrupted"
  | 15 => "GPU is lost"
  | 16 => "GPU reset required"
  | 17 => "Operating system error"
  | 18 => "RM/library version mismatch"
  | 19 => "GPU is in use"
  | 20 => "Memory allocation failed"
  | 21 => "No data available"
  | 22 => "vGPU ECC not supported"
  | 23 => "Insufficient resources"
  | 24 => "Frequency not supported"
  | 25 => "Argument version mismatch"
  | 26 => "Deprecated function"
  | 27 => "Not ready"
  | 28 => "GPU not found"
  | 29 => "Invalid state"
  | 999 => "Unknown error"
  | n => "Unknown error code: " ++ toString n

/-- Mirror of the `NvmlError` class (code plus message). -/
structure NvmlError where
  code : Nat
  message : String
deriving DecidableEq, Repr

/-- Mirror of `NvmlError.fromReturn`: wrap a return code with context. -/
def NvmlError.fromReturn (ret : Nat) (context : String) : NvmlError :=
  ⟨ret, context ++ ": " ++ nvmlErrorString ret⟩

/-- Mirror of the `Result<T>` tagged union from the result module. -/
inductive Result (T : Type) where
  | ok (value : T)
  | err (error : NvmlError)
deriving DecidableEq, Repr

/-- Mirror of `isSuccess`: a raw status code equals the success sentinel. -/
def isSuccess (ret : Nat) : Bool := ret == 0

/-- Mirror of `unwrapOr`. -/
def unwrapOr {T : Type} (result : Result T) (defaultValue : T) : T :=
  match result with
  | .ok value => value
  | .err _ => defaultValue

/-- Mirror of `map`. -/
def map {T U : Type} (result : Result T) (fn : T → U) : Result U :=
  match result with
  | .ok value => .ok (fn value)
  | .err e => .err e

/-- Mirror of `andThen`. -/
def andThen {T U : Type} (result : Result T) (fn : T → Result U) : Result U :=
  match result with
  | .ok value => fn value
  | .err e => .err e

/-- Mirror of `unwrap`: extraction that throws on a failed result. -/
def unwrap {T : Type} (result : Result T) : Except NvmlError T :=
  match result with
  | .ok value => .ok value
  | .err e => .error e

/-- TypeScript exceptions thrown by the wrapper: `NvmlError` for native
failures and lifecycle violations, a plain `Error` (here a bare message)
for malformed arguments. -/
inductive TsError where
  | nvml (e : NvmlError)
  | generic (msg : String)
deriving DecidableEq, Repr

/-! Raw native struct shapes, from `src/bindings/types.ts`. -/

/-- Mirror of `RawNvmlMemory` (three 64-bit byte counts). -/
structure RawNvmlMemory where
  total : Nat
  free : Nat
  used : Nat
deriving DecidableEq, Repr

/-- Mirror of `RawNvmlUtilization`. -/
structure RawNvmlUtilization where
  gpu : Nat
  memory : Nat
deriving DecidableEq, Repr

/-- Mirror of `RawNvmlPciInfo` (char arrays already decoded to strings by
koffi's String hint). -/
structure RawNvmlPciInfo where
  busIdLegacy : String
  domain : Nat
  bus : Nat
  device : Nat
  pciDeviceId : Nat
  pciSubSystemId : Nat
  busId : String
deriving DecidableEq, Repr

/-- Mirror of `RawProcessInfo` / `nvmlProcessInfo_v2_t`. -/
structure RawProcessInfo where
  pid : Nat
  usedGpuMemory : Nat
  gpuInstanceId : Nat
  computeInstanceId : Nat
deriving DecidableEq, Repr

/-- Oracle for the loaded native library: for each native entry point, the
status code and output values the call would produce.  Device handles are
naturals. -/
structure Native where
  init : Nat
  shutdown : Nat
  deviceGetCount : Nat × Nat
  deviceGetHandleByIndex : Nat → Nat × Option Nat
  deviceGetHandleByUUID : String → Nat × Option Nat
  deviceGetName : Nat → Nat × String
  deviceGetUUID : Nat → Nat × String
  deviceGetMemoryInfo : Nat → Nat × RawNvmlMemory
  deviceGetUtilizationRates : Nat → Nat × RawNvmlUtilization
  deviceGetTemperature : Nat → Nat → Nat × Nat
  deviceGetPowerUsage : Nat → Nat × Nat
  deviceGetPowerManagementLimit : Nat → Nat × Nat
  deviceGetFanSpeed : Nat → Nat × Nat
  deviceGetPerformanceState : Nat → Nat × Nat
  deviceGetPciInfo : Nat → Nat × RawNvmlPciInfo
  deviceGetPersistenceMode : Nat → Nat × Nat
  deviceGetDisplayActive : Nat → Nat × Nat
  deviceGetComputeMode : Nat → Nat × Nat
  deviceGetMigMode : Nat → Nat × Nat × Nat
  deviceGetTotalEccErrors : Nat → Nat → Nat → Nat × Nat
  deviceGetComputeRunningProcesses : Nat → Nat × Nat × List RawProcessInfo
  deviceGetGraphicsRunningProcesses : Nat → Nat × Nat × List RawProcessInfo
  systemGetDriverVersion : Nat × String
  systemGetNvmlVersion : Nat × String
  systemGetCudaDriverVersion_v2 : Nat × Nat
  systemGetProcessName : Nat → Nat × String

/-- Call log: the native symbols invoked so far, in order.  Its length is
the clock a `new Date()` call reads. -/
abbrev Log := List String

/-! Binding wrappers, from `src/bindings/init.ts`, `src/bindings/device.ts`,
`src/bindings/system.ts` and `src/bindings/process.ts`.  Each performs one
native call (logged) and marshals the outputs. -/

def nvmlInit (native : Native) (log : Log) : Nat × Log :=
  (native.init, log ++ ["nvmlInit_v2"])

def nvmlShutdown (native : Native) (log : Log) : Nat × Log :=
  (native.shutdown, log ++ ["nvmlShutdown"])

def nvmlDeviceGetCount (native : Native) (log : Log) : (Nat × Nat) × Log :=
  (native.deviceGetCount, log ++ ["nvmlDeviceGetCount_v2"])

def nvmlDeviceGetHandleByIndex (native : Native) (index : Nat) (log : Log) :
    (Nat × Option Nat) × Log :=
  (native.deviceGetHandleByIndex index, log ++ ["nvmlDeviceGetHandleByIndex_v2"])

def nvmlDeviceGetHandleByUUID (native : Native) (uuid : String) (log : Log) :
    (Nat × Option Nat) × Log :=
  (native.deviceGetHandleByUUID uuid, log ++ ["nvmlDeviceGetHandleByUUID"])

def nvmlDeviceGetName (native : Native) (device : Nat) (log : Log) :
    (Nat × String) × Log :=
  (native.deviceGetName device, log ++ ["nvmlDeviceGetName"])

def nvmlDeviceGetUUID (native : Native) (device : Nat) (log : Log) :
    (Nat × String) × Log :=
  (native.deviceGetUUID device, log ++ ["nvmlDeviceGetUUID"])

def nvmlDeviceGetMemoryInfo (native : Native) (device : Nat) (log : Log) :
    (Nat × RawNvmlMemory) × Log :=
  (native.deviceGetMemoryInfo device, log ++ ["nvmlDeviceGetMemoryInfo"])

def nvmlDeviceGetUtilizationRates (native : Native) (device : Nat) (log : Log) :
    (Nat × RawNvmlUtilization) × Log :=
  (native.deviceGetUtilizationRates device, log ++ ["nvmlDeviceGetUtilizationRates"])

def nvmlDeviceGetTemperature (native : Native) (device : Nat) (sensorType : Nat)
    (log : Log) : (Nat × Nat) × Log :=
  (native.deviceGetTemperature device sensorType, log ++ ["nvmlDeviceGetTemperature"])

def nvmlDeviceGetPowerUsage (native : Native) (device : Nat) (log : Log) :
    (Nat × Nat) × Log :=
  (native.deviceGetPowerUsage device, log ++ ["nvmlDeviceGetPowerUsage"])

def nvmlDeviceGetPowerManagementLimit (native : Native) (device : Nat) (log : Log) :
    (Nat × Nat) × Log :=
  (native.deviceGetPowerManagementLimit device, log ++ ["nvmlDeviceGetPowerManagementLimit"])

def nvmlDeviceGetFanSpeed (native : Native) (device : Nat) (log : Log) :
    (Nat × Nat) × Log :=
  (native.deviceGetFanSpeed device, log ++ ["nvmlDeviceGetFanSpeed"])

def nvmlDeviceGetPerformanceState (native : Native) (device : Nat) (log : Log) :
    (Nat × Nat) × Log :=
  (native.deviceGetPerformanceState device, log ++ ["nvmlDeviceGetPerformanceState"])

def nvmlDeviceGetPciInfo (native : Native) (device : Nat) (log : Log) :
    (Nat × RawNvmlPciInfo) × Log :=
  (native.deviceGetPciInfo device, log ++ ["nvmlDeviceGetPciInfo_v3"])

/-- Mirror of `nvmlDeviceGetPersistenceMode`: marshals the native int mode
to `enabled = (mode === 1)`. -/
def nvmlDeviceGetPersistenceMode (native : Native) (device : Nat) (log : Log) :
    (Nat × Bool) × Log :=
  let r := native.deviceGetPersistenceMode device
  ((r.1, r.2 == 1), log ++ ["nvmlDeviceGetPersistenceMode"])

/-- Mirror of `nvmlDeviceGetDisplayActive`: marshals `active = (isActive === 1)`. -/
def nvmlDeviceGetDisplayActive (native : Native) (device : Nat) (log : Log) :
    (Nat × Bool) × Log :=
  let r := native.deviceGetDisplayActive device
  ((r.1, r.2 == 1), log ++ ["nvmlDeviceGetDisplayActive"])

def nvmlDeviceGetComputeMode (native : Native) (device : Nat) (log : Log) :
    (Nat × Nat) × Log :=
  (native.deviceGetComputeMode device, log ++ ["nvmlDeviceGetComputeMode"])

def nvmlDeviceGetMigMode (native : Native) (device : Nat) (log : Log) :
    (Nat × Nat × Nat) × Log :=
  (native.deviceGetMigMode device, log ++ ["nvmlDeviceGetMigMode"])

def nvmlDeviceGetTotalEccErrors (native : Native) (device : Nat)
    (errorType : Nat) (counterType : Nat) (log : Log) : (Nat × Nat) × Log :=
  (native.deviceGetTotalEccErrors device errorType counterType,
    log ++ ["nvmlDeviceGetTotalEccErrors"])

/-- Maximum number of processes queried, from `src/bindings/process.ts`. -/
def MAX_PROCESSES : Nat := 128

/-- Marshalling loop shared by both process-enumeration bindings: keep the
entries with index below the returned count (and below `MAX_PROCESSES`)
whose pid is nonzero. -/
def marshalProcessList (count : Nat) (infos : List RawProcessInfo) :
    List RawProcessInfo :=
  (infos.take (min count MAX_PROCESSES)).filter (fun info => 0 < info.pid)

def nvmlDeviceGetComputeRunningProcesses (native : Native) (device : Nat)
    (log : Log) : (Nat × List RawProcessInfo) × Log :=
  let r := native.deviceGetComputeRunningProcesses device
  ((r.1, marshalProcessList r.2.1 r.2.2),
    log ++ ["nvmlDeviceGetComputeRunningProcesses_v3"])

def nvmlDeviceGetGraphicsRunningProcesses (native : Native) (device : Nat)
    (log : Log) : (Nat × List RawProcessInfo) × Log :=
  let r := native.deviceGetGraphicsRunningProcesses device
  ((r.1, marshalProcessList r.2.1 r.2.2),
    log ++ ["nvmlDeviceGetGraphicsRunningProcesses_v3"])

def nvmlSystemGetDriverVersion (native : Native) (log : Log) :
    (Nat × String) × Log :=
  (native.systemGetDriverVersion, log ++ ["nvmlSystemGetDriverVersion"])

def nvmlSystemGetNvmlVersion (native : Native) (log : Log) :
    (Nat × String) × Log :=
  (native.systemGetNvmlVersion, log ++ ["nvmlSystemGetNVMLVersion"])

def nvmlSystemGetCudaDriverVersion_v2 (native : Native) (log : Log) :
    (Nat × Nat) × Log :=
  (native.systemGetCudaDriverVersion_v2, log ++ ["nvmlSystemGetCudaDriverVersion_v2"])

/-- First field of a NUL-delimited multi-field string (the semantics of
`buffer.toString().split(NUL)[0]`): the characters before the first NUL. -/
def firstNullField (s : String) : String :=
  ⟨s.data.takeWhile (fun c => !(c == Char.ofNat 0))⟩

/-- Mirror of `nvmlSystemGetProcessName`: the native buffer may hold a
NUL-delimited multi-field string; only the first field is kept. -/
def nvmlSystemGetProcessName (native : Native) (pid : Nat) (log : Log) :
    (Nat × String) × Log :=
  let r := native.systemGetProcessName pid
  ((r.1, firstNullField r.2), log ++ ["nvmlSystemGetProcessName"])

/-- Mirror of `cudaVersionToString` in `src/bindings/system.ts`. -/
def cudaVersionToString (version : Nat) : String :=
  toString (version / 1000) ++ "." ++ toString (version % 1000 / 10)

/-! Domain value objects, from `src/types/structs.ts`. -/

/-- JavaScript `Math.round`: round half away from zero toward positive
infinity. -/
def jsRound (q : ℚ) : ℤ := ⌊q + 1 / 2⌋

/-- Mirror of `MemoryInfo` (byte counts kept at full width). -/
structure MemoryInfo where
  total : Nat
  free : Nat
  used : Nat
deriving DecidableEq, Repr

/-- Mirror of `UtilizationRates`. -/
structure UtilizationRates where
  gpu : Nat
  memory : Nat
deriving DecidableEq, Repr

/-- Mirror of the domain `PciInfo`. -/
structure PciInfo where
  busId : String
  domain : Nat
  bus : Nat
  device : Nat
  function : Nat
  pciDeviceId : Nat
  pciSubsystemId : Nat
deriving DecidableEq, Repr

/-- Mirror of `GpuBasicInfo`. -/
structure GpuBasicInfo where
  index : Int
  name : String
  memoryTotalMiB : Nat
  memoryTotalGiB : ℚ
deriving DecidableEq, Repr

/-- Mirror of `GpuStatus`. -/
structure GpuStatus where
  index : Int
  name : String
  persistenceMode : Bool
  pciBusId : String
  displayActive : Bool
  eccErrorsCorrected : Option Nat
  fanSpeed : Option Nat
  temperature : Nat
  pstate : Nat
  powerDraw : ℚ
  powerLimit : ℚ
  memoryUsedMiB : Nat
  memoryTotalMiB : Nat
  utilizationGpu : Nat
  utilizationMemory : Nat
  computeMode : Nat
  migMode : Option Bool
deriving DecidableEq, Repr

/-- Mirror of `GpuProcess`. -/
structure GpuProcess where
  gpuIndex : Int
  pid : Nat
  processName : String
  usedMemoryMiB : Nat
deriving DecidableEq, Repr

/-- Mirror of `DriverInfo`. -/
structure DriverInfo where
  driverVersion : String
  nvmlVersion : String
  cudaVersion : String
deriving DecidableEq, Repr

/-- Mirror of `SystemSnapshot`.  The timestamp is the clock reading (the
number of native calls made so far) at the moment `new Date()` runs. -/
structure SystemSnapshot where
  timestamp : Nat
  driver : DriverInfo
  gpus : List GpuStatus
  processes : List GpuProcess
deriving DecidableEq, Repr

/-! The `Device` class, from `src/device.ts`. -/

/-- Mirror of the `Device` class: a native handle plus the cached index
(`-1` when constructed by UUID). -/
structure Device where
  handle : Nat
  index : Int
deriving DecidableEq, Repr

/-- Mirror of `Device.getByIndex`: malformed indices throw a plain
`Error`; native failure throws an `NvmlError`. -/
def Device.getByIndex (native : Native) (index : Int) (log : Log) :
    Except TsError Device × Log :=
  if index < 0 then
    (.error (.generic
      ("Invalid device index: expected non-negative integer, got " ++ toString index)), log)
  else
    let c := nvmlDeviceGetHandleByIndex native index.toNat log
    match c.1 with
    | (ret, some device) =>
      if isSuccess ret then (.ok ⟨device, index⟩, c.2)
      else (.error (.nvml (NvmlError.fromReturn ret
        ("Failed to get device at index " ++ toString index))), c.2)
    | (ret, none) =>
      (.error (.nvml (NvmlError.fromReturn ret
        ("Failed to get device at index " ++ toString index))), c.2)

/-- Model of JavaScript `String.prototype.trim`: strip leading and
trailing whitespace. -/
def jsTrim (s : String) : String :=
  ⟨((s.data.dropWhile Char.isWhitespace).reverse.dropWhile Char.isWhitespace).reverse⟩

/-- Mirror of `Device.getByUUID`: an empty (after trim) UUID throws a
plain `Error` before any native call; the index is the `-1` sentinel. -/
def Device.getByUUID (native : Native) (uuid : String) (log : Log) :
    Except TsError Device × Log :=
  if (jsTrim uuid).length == 0 then
    (.error (.generic "Invalid device UUID: expected non-empty string"), log)
  else
    let c := nvmlDeviceGetHandleByUUID native uuid log
    match c.1 with
    | (ret, some device) =>
      if isSuccess ret then (.ok ⟨device, -1⟩, c.2)
      else (.error (.nvml (NvmlError.fromReturn ret
        ("Failed to get device with UUID " ++ uuid))), c.2)
    | (ret, none) =>
      (.error (.nvml (NvmlError.fromReturn ret
        ("Failed to get device with UUID " ++ uuid))), c.2)

def Device.getName (native : Native) (d : Device) (log : Log) :
    Result String × Log :=
  let c := nvmlDeviceGetName native d.handle log
  if isSuccess c.1.1 then (.ok c.1.2, c.2)
  else (.err (NvmlError.fromReturn c.1.1 "Failed to get device name"), c.2)

def Device.getUUID (native : Native) (d : Device) (log : Log) :
    Result String × Log :=
  let c := nvmlDeviceGetUUID native d.handle log
  if isSuccess c.1.1 then (.ok c.1.2, c.2)
  else (.err (NvmlError.fromReturn c.1.1 "Failed to get device UUID"), c.2)

def Device.getMemoryInfo (native : Native) (d : Device) (log : Log) :
    Result MemoryInfo × Log :=
  let c := nvmlDeviceGetMemoryInfo native d.handle log
  if isSuccess c.1.1 then
    (.ok ⟨c.1.2.total, c.1.2.free, c.1.2.used⟩, c.2)
  else (.err (NvmlError.fromReturn c.1.1 "Failed to get memory info"), c.2)

def Device.getUtilizationRates (native : Native) (d : Device) (log : Log) :
    Result UtilizationRates × Log :=
  let c := nvmlDeviceGetUtilizationRates native d.handle log
  if isSuccess c.1.1 then (.ok ⟨c.1.2.gpu, c.1.2.memory⟩, c.2)
  else (.err (NvmlError.fromReturn c.1.1 "Failed to get utilization rates"), c.2)

/-- Mirror of `Device.getTemperature` (sensor `NvmlTemperatureSensors.GPU = 0`). -/
def Device.getTemperature (native : Native) (d : Device) (log : Log) :
    Result Nat × Log :=
  let c := nvmlDeviceGetTemperature native d.handle 0 log
  if isSuccess c.1.1 then (.ok c.1.2, c.2)
  else (.err (NvmlError.fromReturn c.1.1 "Failed to get temperature"), c.2)

/-- Mirror of `Device.getPowerUsage`: converts milliwatts to watts by
exact (non-truncating) division by 1000. -/
def Device.getPowerUsage (native : Native) (d : Device) (log : Log) :
    Result ℚ × Log :=
  let c := nvmlDeviceGetPowerUsage native d.handle log
  if isSuccess c.1.1 then (.ok ((c.1.2 : ℚ) / 1000), c.2)
  else (.err (NvmlError.fromReturn c.1.1 "Failed to get power usage"), c.2)

/-- Mirror of `Device.getPowerLimit`: converts milliwatts to watts by
exact (non-truncating) division by 1000. -/
def Device.getPowerLimit (native : Native) (d : Device) (log : Log) :
    Result ℚ × Log :=
  let c := nvmlDeviceGetPowerManagementLimit native d.handle log
  if isSuccess c.1.1 then (.ok ((c.1.2 : ℚ) / 1000), c.2)
  else (.err (NvmlError.fromReturn c.1.1 "Failed to get power limit"), c.2)

/-- Mirror of `Device.getFanSpeed`: `ERROR_NOT_SUPPORTED` yields a
successful absent value. -/
def Device.getFanSpeed (native : Native) (d : Device) (log : Log) :
    Result (Option Nat) × Log :=
  let c := nvmlDeviceGetFanSpeed native d.handle log
  if c.1.1 = ERROR_NOT_SUPPORTED then (.ok none, c.2)
  else if isSuccess c.1.1 then (.ok (some c.1.2), c.2)
  else (.err (NvmlError.fromReturn c.1.1 "Failed to get fan speed"), c.2)

def Device.getPerformanceState (native : Native) (d : Device) (log : Log) :
    Result Nat × Log :=
  let c := nvmlDeviceGetPerformanceState native d.handle log
  if isSuccess c.1.1 then (.ok c.1.2, c.2)
  else (.err (NvmlError.fromReturn c.1.1 "Failed to get performance state"), c.2)

/-- Mirror of `Device.getPciInfo`: the domain object's `function` field is
the hardcoded constant 0, never read from the native struct. -/
def Device.getPciInfo (native : Native) (d : Device) (log : Log) :
    Result PciInfo × Log :=
  let c := nvmlDeviceGetPciInfo native d.handle log
  if isSuccess c.1.1 then
    (.ok ⟨c.1.2.busId, c.1.2.domain, c.1.2.bus, c.1.2.device, 0,
      c.1.2.pciDeviceId, c.1.2.pciSubSystemId⟩, c.2)
  else (.err (NvmlError.fromReturn c.1.1 "Failed to get PCI info"), c.2)

def Device.getPersistenceMode (native : Native) (d : Device) (log : Log) :
    Result Bool × Log :=
  let c := nvmlDeviceGetPersistenceMode native d.handle log
  if isSuccess c.1.1 then (.ok c.1.2, c.2)
  else (.err (NvmlError.fromReturn c.1.1 "Failed to get persistence mode"), c.2)

def Device.getDisplayActive (native : Native) (d : Device) (log : Log) :
    Result Bool × Log :=
  let c := nvmlDeviceGetDisplayActive native d.handle log
  if isSuccess c.1.1 then (.ok c.1.2, c.2)
  else (.err (NvmlError.fromReturn c.1.1 "Failed to get display active status"), c.2)

def Device.getComputeMode (native : Native) (d : Device) (log : Log) :
    Result Nat × Log :=
  let c := nvmlDeviceGetComputeMode native d.handle log
  if isSuccess c.1.1 then (.ok c.1.2, c.2)
  else (.err (NvmlError.fromReturn c.1.1 "Failed to get compute mode"), c.2)

/-- Mirror of `Device.getMigMode`: `ERROR_NOT_SUPPORTED` yields a
successful absent value; otherwise `enabled = (currentMode === 1)`. -/
def Device.getMigMode (native : Native) (d : Device) (log : Log) :
    Result (Option Bool) × Log :=
  let c := nvmlDeviceGetMigMode native d.handle log
  if c.1.1 = ERROR_NOT_SUPPORTED then (.ok none, c.2)
  else if isSuccess c.1.1 then (.ok (some (c.1.2.1 == 1)), c.2)
  else (.err (NvmlError.fromReturn c.1.1 "Failed to get MIG mode"), c.2)

/-- Mirror of `Device.getEccErrorsCorrected` (errorType `CORRECTED = 0`,
counterType `VOLATILE = 0`): `ERROR_NOT_SUPPORTED` yields a successful
absent value. -/
def Device.getEccErrorsCorrected (native : Native) (d : Device) (log : Log) :
    Result (Option Nat) × Log :=
  let c := nvmlDeviceGetTotalEccErrors native d.handle 0 0 log
  if c.1.1 = ERROR_NOT_SUPPORTED then (.ok none, c.2)
  else if isSuccess c.1.1 then (.ok (some c.1.2), c.2)
  else (.err (NvmlError.fromReturn c.1.1 "Failed to get ECC errors"), c.2)

/-- Mirror of `Device.getBasicInfo`: name then memory, short-circuiting on
the first failure and returning it verbatim. -/
def Device.getBasicInfo (native : Native) (d : Device) (log : Log) :
    Result GpuBasicInfo × Log :=
  match Device.getName native d log with
  | (.err e, l) => (.err e, l)
  | (.ok name, l1) =>
  match Device.getMemoryInfo native d l1 with
  | (.err e, l) => (.err e, l)
  | (.ok memory, l2) =>
  let totalMiB := memory.total / (1024 * 1024)
  (.ok ⟨d.index, name, totalMiB,
    (jsRound ((totalMiB : ℚ) / 1024 * 10) : ℚ) / 10⟩, l2)

/-- Mirror of `Device.getStatus`: fourteen single-field queries in a fixed
sequence, short-circuiting on the first failure and returning it verbatim. -/
def Device.getStatus (native : Native) (d : Device) (log : Log) :
    Result GpuStatus × Log :=
  match Device.getName native d log with
  | (.err e, l) => (.err e, l)
  | (.ok name, l1) =>
  match Device.getPersistenceMode native d l1 with
  | (.err e, l) => (.err e, l)
  | (.ok persistence, l2) =>
  match Device.getPciInfo native d l2 with
  | (.err e, l) => (.err e, l)
  | (.ok pci, l3) =>
  match Device.getDisplayActive native d l3 with
  | (.err e, l) => (.err e, l)
  | (.ok display, l4) =>
  match Device.getEccErrorsCorrected native d l4 with
  | (.err e, l) => (.err e, l)
  | (.ok ecc, l5) =>
  match Device.getFanSpeed native d l5 with
  | (.err e, l) => (.err e, l)
  | (.ok fan, l6) =>
  match Device.getTemperature native d l6 with
  | (.err e, l) => (.err e, l)
  | (.ok temp, l7) =>
  match Device.getPerformanceState native d l7 with
  | (.err e, l) => (.err e, l)
  | (.ok pstate, l8) =>
  match Device.getPowerUsage native d l8 with
  | (.err e, l) => (.err e, l)
  | (.ok power, l9) =>
  match Device.getPowerLimit native d l9 with
  | (.err e, l) => (.err e, l)
  | (.ok powerLimit, l10) =>
  match Device.getMemoryInfo native d l10 with
  | (.err e, l) => (.err e, l)
  | (.ok memory, l11) =>
  match Device.getUtilizationRates native d l11 with
  | (.err e, l) => (.err e, l)
  | (.ok util, l12) =>
  match Device.getComputeMode native d l12 with
  | (.err e, l) => (.err e, l)
  | (.ok computeMode, l13) =>
  match Device.getMigMode native d l13 with
  | (.err e, l) => (.err e, l)
  | (.ok mig, l14) =>
  (.ok ⟨d.index, name, persistence, pci.busId, display, ecc, fan, temp,
    pstate, power, powerLimit, memory.used / (1024 * 1024),
    memory.total / (1024 * 1024), util.gpu, util.memory, computeMode, mig⟩, l14)

/-- Conversion of one raw process entry to a `GpuProcess`, as performed
inside the `Device.getProcesses` loop: best-effort name lookup with the
synthetic placeholder on failure, and byte-to-MiB conversion. -/
def mkGpuProcess (native : Native) (gpuIndex : Int) (rawProc : RawProcessInfo) :
    GpuProcess :=
  let nameResult := (native.systemGetProcessName rawProc.pid)
  ⟨gpuIndex, rawProc.pid,
    if isSuccess nameResult.1 then firstNullField nameResult.2
    else "pid:" ++ toString rawProc.pid,
    rawProc.usedGpuMemory / (1024 * 1024)⟩

/-- The deduplicating conversion loop of `Device.getProcesses`: pids
already seen are skipped; each retained entry performs one (logged) name
lookup. -/
def processLoop (native : Native) (gpuIndex : Int) (seenPids : List Nat) :
    List RawProcessInfo → Log → List GpuProcess × Log
  | [], log => ([], log)
  | rawProc :: rest, log =>
    if rawProc.pid ∈ seenPids then processLoop native gpuIndex seenPids rest log
    else
      let c := nvmlSystemGetProcessName native rawProc.pid log
      let entry : GpuProcess :=
        ⟨gpuIndex, rawProc.pid,
          if isSuccess c.1.1 then c.1.2 else "pid:" ++ toString rawProc.pid,
          rawProc.usedGpuMemory / (1024 * 1024)⟩
      let r := processLoop native gpuIndex (rawProc.pid :: seenPids) rest c.2
      (entry :: r.1, r.2)

/-- Mirror of `Device.getProcesses`: the compute list then the graphics
list, deduplicated by pid with first occurrence winning. -/
def Device.getProcesses (native : Native) (d : Device) (log : Log) :
    Result (List GpuProcess) × Log :=
  let cc := nvmlDeviceGetComputeRunningProcesses native d.handle log
  if isSuccess cc.1.1 then
    let gc := nvmlDeviceGetGraphicsRunningProcesses native d.handle cc.2
    if isSuccess gc.1.1 then
      let allRawProcesses := cc.1.2 ++ gc.1.2
      let r := processLoop native d.index [] allRawProcesses gc.2
      (.ok r.1, r.2)
    else (.err (NvmlError.fromReturn gc.1.1 "Failed to get graphics processes"), gc.2)
  else (.err (NvmlError.fromReturn cc.1.1 "Failed to get compute processes"), cc.2)

/-! The `Nvml` namespace, from `src/nvml.ts`.  The module-level mutable
`initialized` flag is passed as an explicit `Bool` state; `init` and
`shutdown` return the new state alongside their outcome. -/

/-- Value of the module-level `initialized` flag before any call. -/
def initialState : Bool := false

/-- Mirror of `Nvml.init`: native success flips the flag to `true`;
native failure throws with the code wrapped in context and leaves the
flag unchanged. -/
def Nvml.init (native : Native) (state : Bool) (log : Log) :
    (Except TsError Unit × Bool) × Log :=
  let c := nvmlInit native log
  if isSuccess c.1 then ((.ok (), true), c.2)
  else ((.error (.nvml (NvmlError.fromReturn c.1 "Failed to initialize NVML")), state), c.2)

/-- Mirror of `Nvml.shutdown`: native success flips the flag to `false`;
native failure throws and leaves the flag unchanged. -/
def Nvml.shutdown (native : Native) (state : Bool) (log : Log) :
    (Except TsError Unit × Bool) × Log :=
  let c := nvmlShutdown native log
  if isSuccess c.1 then ((.ok (), false), c.2)
  else ((.error (.nvml (NvmlError.fromReturn c.1 "Failed to shutdown NVML")), state), c.2)

/-- Mirror of `Nvml.isInitialized`: a pure read of the flag. -/
def Nvml.isInitialized (state : Bool) : Bool := state

/-- Mirror of `Nvml.ensureInitialized`: throws the distinguished
uninitialized error, with no native call, whenever the flag is false. -/
def Nvml.ensureInitialized (state : Bool) : Except TsError Unit :=
  if state then .ok ()
  else .error (.nvml ⟨ERROR_UNINITIALIZED, "NVML not initialized. Call Nvml.init() first."⟩)

/-- The distinguished error object `ensureInitialized` throws. -/
def uninitializedError : TsError :=
  .nvml ⟨ERROR_UNINITIALIZED, "NVML not initialized. Call Nvml.init() first."⟩

/-- Mirror of `Nvml.getDeviceCount`: gated, then throws on native failure. -/
def Nvml.getDeviceCount (native : Native) (state : Bool) (log : Log) :
    Except TsError Nat × Log :=
  match Nvml.ensureInitialized state with
  | .error e => (.error e, log)
  | .ok _ =>
    let c := nvmlDeviceGetCount native log
    if isSuccess c.1.1 then (.ok c.1.2, c.2)
    else (.error (.nvml (NvmlError.fromReturn c.1.1 "Failed to get device count")), c.2)

/-- Mirror of `Nvml.getDevice`. -/
def Nvml.getDevice (native : Native) (state : Bool) (index : Int) (log : Log) :
    Except TsError Device × Log :=
  match Nvml.ensureInitialized state with
  | .error e => (.error e, log)
  | .ok _ => Device.getByIndex native index log

/-- Mirror of `Nvml.getDeviceByUUID`. -/
def Nvml.getDeviceByUUID (native : Native) (state : Bool) (uuid : String)
    (log : Log) : Except TsError Device × Log :=
  match Nvml.ensureInitialized state with
  | .error e => (.error e, log)
  | .ok _ => Device.getByUUID native uuid log

/-- Enumeration loop of `Nvml.getAllDevices`. -/
def getAllDevicesLoop (native : Native) :
    List Nat → Log → Except TsError (List Device) × Log
  | [], log => (.ok [], log)
  | i :: rest, log =>
    match Device.getByIndex native (i : Int) log with
    | (.error e, l) => (.error e, l)
    | (.ok d, l) =>
      match getAllDevicesLoop native rest l with
      | (.ok ds, l2) => (.ok (d :: ds), l2)
      | (.error e, l2) => (.error e, l2)

/-- Mirror of `Nvml.getAllDevices`. -/
def Nvml.getAllDevices (native : Native) (state : Bool) (log : Log) :
    Except TsError (List Device) × Log :=
  match Nvml.getDeviceCount native state log with
  | (.error e, l) => (.error e, l)
  | (.ok count, l) => getAllDevicesLoop native (List.range count) l

/-- Mirror of `Nvml.getDriverInfo`: three version queries in sequence,
each native failure wrapped with its own context. -/
def Nvml.getDriverInfo (native : Native) (state : Bool) (log : Log) :
    Except TsError (Result DriverInfo) × Log :=
  match Nvml.ensureInitialized state with
  | .error e => (.error e, log)
  | .ok _ =>
    let dr := nvmlSystemGetDriverVersion native log
    if isSuccess dr.1.1 then
      let nv := nvmlSystemGetNvmlVersion native dr.2
      if isSuccess nv.1.1 then
        let cu := nvmlSystemGetCudaDriverVersion_v2 native nv.2
        if isSuccess cu.1.1 then
          (.ok (.ok ⟨dr.1.2, nv.1.2, cudaVersionToString cu.1.2⟩), cu.2)
        else (.ok (.err (NvmlError.fromReturn cu.1.1 "Failed to get CUDA version")), cu.2)
      else (.ok (.err (NvmlError.fromReturn nv.1.1 "Failed to get NVML version")), nv.2)
    else (.ok (.err (NvmlError.fromReturn dr.1.1 "Failed to get driver version")), dr.2)

/-- Mirror of `Nvml.getDriverVersion`. -/
def Nvml.getDriverVersion (native : Native) (state : Bool) (log : Log) :
    Except TsError (Result String) × Log :=
  match Nvml.ensureInitialized state with
  | .error e => (.error e, log)
  | .ok _ =>
    let c := nvmlSystemGetDriverVersion native log
    if isSuccess c.1.1 then (.ok (.ok c.1.2), c.2)
    else (.ok (.err (NvmlError.fromReturn c.1.1 "Failed to get driver version")), c.2)

/-- Mirror of `Nvml.getNvmlVersion`. -/
def Nvml.getNvmlVersion (native : Native) (state : Bool) (log : Log) :
    Except TsError (Result String) × Log :=
  match Nvml.ensureInitialized state with
  | .error e => (.error e, log)
  | .ok _ =>
    let c := nvmlSystemGetNvmlVersion native log
    if isSuccess c.1.1 then (.ok (.ok c.1.2), c.2)
    else (.ok (.err (NvmlError.fromReturn c.1.1 "Failed to get NVML version")), c.2)

/-- Mirror of `Nvml.getCudaVersion`. -/
def Nvml.getCudaVersion (native : Native) (state : Bool) (log : Log) :
    Except TsError (Result String) × Log :=
  match Nvml.ensureInitialized state with
  | .error e => (.error e, log)
  | .ok _ =>
    let c := nvmlSystemGetCudaDriverVersion_v2 native log
    if isSuccess c.1.1 then (.ok (.ok (cudaVersionToString c.1.2)), c.2)
    else (.ok (.err (NvmlError.fromReturn c.1.1 "Failed to get CUDA version")), c.2)

/-- Per-device loop of `Nvml.getAllGpuStatus`: `Device.getByIndex` may
throw; a failing `getStatus` aborts the aggregate with its failure. -/
def gpuStatusLoop (native : Native) :
    List Nat → Log → Except TsError (Result (List GpuStatus)) × Log
  | [], log => (.ok (.ok []), log)
  | i :: rest, log =>
    match Device.getByIndex native (i : Int) log with
    | (.error e, l) => (.error e, l)
    | (.ok d, l) =>
      match Device.getStatus native d l with
      | (.err e, l2) => (.ok (.err e), l2)
      | (.ok st, l2) =>
        match gpuStatusLoop native rest l2 with
        | (.ok (.ok sts), l3) => (.ok (.ok (st :: sts)), l3)
        | (.ok (.err e), l3) => (.ok (.err e), l3)
        | (.error e, l3) => (.error e, l3)

/-- Mirror of `Nvml.getAllGpuStatus`. -/
def Nvml.getAllGpuStatus (native : Native) (state : Bool) (log : Log) :
    Except TsError (Result (List GpuStatus)) × Log :=
  match Nvml.ensureInitialized state with
  | .error e => (.error e, log)
  | .ok _ =>
    let c := nvmlDeviceGetCount native log
    if isSuccess c.1.1 then gpuStatusLoop native (List.range c.1.2) c.2
    else (.ok (.err (NvmlError.fromReturn c.1.1 "Failed to get device count")), c.2)

/-- Per-device process-collection loop of `Nvml.getSystemSnapshot`. -/
def snapshotProcessLoop (native : Native) :
    List Nat → Log → Except TsError (Result (List GpuProcess)) × Log
  | [], log => (.ok (.ok []), log)
  | i :: rest, log =>
    match Device.getByIndex native (i : Int) log with
    | (.error e, l) => (.error e, l)
    | (.ok d, l) =>
      match Device.getProcesses native d l with
      | (.err e, l2) => (.ok (.err e), l2)
      | (.ok ps, l2) =>
        match snapshotProcessLoop native rest l2 with
        | (.ok (.ok more), l3) => (.ok (.ok (ps ++ more)), l3)
        | (.ok (.err e), l3) => (.ok (.err e), l3)
        | (.error e, l3) => (.error e, l3)

/-- Mirror of `Nvml.getSystemSnapshot`: driver info, then all GPU
statuses, then process collection; the `new Date()` timestamp is the
clock reading (log length) at the point the snapshot object is built,
after the process loop has finished. -/
def Nvml.getSystemSnapshot (native : Native) (state : Bool) (log : Log) :
    Except TsError (Result SystemSnapshot) × Log :=
  match Nvml.ensureInitialized state with
  | .error e => (.error e, log)
  | .ok _ =>
    match Nvml.getDriverInfo native state log with
    | (.error e, l) => (.error e, l)
    | (.ok (.err e), l) => (.ok (.err e), l)
    | (.ok (.ok driver), l1) =>
    match Nvml.getAllGpuStatus native state l1 with
    | (.error e, l) => (.error e, l)
    | (.ok (.err e), l) => (.ok (.err e), l)
    | (.ok (.ok gpus), l2) =>
    let c := nvmlDeviceGetCount native l2
    if isSuccess c.1.1 then
      match snapshotProcessLoop native (List.range c.1.2) c.2 with
      | (.error e, l) => (.error e, l)
      | (.ok (.err e), l) => (.ok (.err e), l)
      | (.ok (.ok allProcesses), lF) =>
        (.ok (.ok ⟨lF.length, driver, gpus, allProcesses⟩), lF)
    else
      (.ok (.err (NvmlError.fromReturn c.1.1
        "Failed to get device count for process query")), c.2)

/-! Library handle manager and symbol binding cache, from
`src/bindings/library.ts` and the module-level lazy binding pattern of
`src/bindings/device.ts` (two representative cached bindings are
modelled).  A loaded library is identified by the value of the load
counter at load time, so two successive loads yield distinct handles; a
resolved callable is modelled by the handle of the library it was bound
against. -/

/-- The module-level mutable state of the binding layer: the `lib` and
`libraryPath` variables of `library.ts` plus the lazily cached function
bindings (each `none` until first use). -/
structure BindingState where
  lib : Option Nat
  libraryPath : Option String
  loadCount : Nat
  deviceGetCountBinding : Option Nat
  deviceGetNameBinding : Option Nat
deriving DecidableEq, Repr

/-- State at module load: nothing loaded, nothing resolved. -/
def freshBindingState : BindingState := ⟨none, none, 0, none, none⟩

/-- Mirror of `getLibrary`: memoized load.  `findPath` is the external
discovery collaborator's answer; a successful `koffi.load` is modelled as
producing the next handle. -/
def getLibrary (findPath : Option String) (s : BindingState) :
    Except String (Nat × BindingState) :=
  match s.lib with
  | some handle => .ok (handle, s)
  | none =>
    match findPath with
    | none => .error "Could not find libnvidia-ml.so"
    | some path =>
      .ok (s.loadCount,
        { s with lib := some s.loadCount, libraryPath := some path,
                 loadCount := s.loadCount + 1 })

/-- Mirror of `isLibraryLoaded`. -/
def isLibraryLoaded (s : BindingState) : Bool := s.lib.isSome

/-- Mirror of `getLoadedLibraryPath`. -/
def getLoadedLibraryPath (s : BindingState) : Option String := s.libraryPath

/-- Mirror of `unloadLibrary`: sets `lib` and `libraryPath` to null.  It
touches nothing else. -/
def unloadLibrary (s : BindingState) : BindingState :=
  { s with lib := none, libraryPath := none }

/-- Mirror of the lazy getter `getDeviceGetCount` in
`src/bindings/device.ts`: return the cached callable when present,
otherwise resolve against `getLibrary()` and cache. -/
def getDeviceGetCount (findPath : Option String) (s : BindingState) :
    Except String (Nat × BindingState) :=
  match s.deviceGetCountBinding with
  | some callable => .ok (callable, s)
  | none =>
    match getLibrary findPath s with
    | .error e => .error e
    | .ok (handle, s2) =>
      .ok (handle, { s2 with deviceGetCountBinding := some handle })

/-- Mirror of the lazy getter `getDeviceGetName`. -/
def getDeviceGetName (findPath : Option String) (s : BindingState) :
    Except String (Nat × BindingState) :=
  match s.deviceGetNameBinding with
  | some callable => .ok (callable, s)
  | none =>
    match getLibrary findPath s with
    | .error e => .error e
    | .ok (handle, s2) =>
      .ok (handle, { s2 with deviceGetNameBinding := some handle })

/-! Concrete fixtures used by witnesses and counterexamples.  The values
follow the unit-test mock (`test/unit/mock-bindings.ts`): a single
simulated GPU with 8 GiB total, 150000 mW draw, CUDA integer 12040. -/

/-- Mock PCI struct. -/
def mockPci : RawNvmlPciInfo :=
  ⟨"0000:00:1E.0", 0, 0, 30, 0x123456, 0x789abc, "00000000:00:1E.0"⟩

/-- Oracle for a healthy single-GPU system where every query succeeds. -/
def natMock : Native where
  init := 0
  shutdown := 0
  deviceGetCount := (0, 1)
  deviceGetHandleByIndex := fun _ => (0, some 7)
  deviceGetHandleByUUID := fun _ => (0, some 7)
  deviceGetName := fun _ => (0, "NVIDIA Mock GPU")
  deviceGetUUID := fun _ => (0, "GPU-mock-uuid-1234-5678-abcdef")
  deviceGetMemoryInfo := fun _ => (0, ⟨8589934592, 6442450944, 2147483648⟩)
  deviceGetUtilizationRates := fun _ => (0, ⟨45, 25⟩)
  deviceGetTemperature := fun _ _ => (0, 55)
  deviceGetPowerUsage := fun _ => (0, 150000)
  deviceGetPowerManagementLimit := fun _ => (0, 300000)
  deviceGetFanSpeed := fun _ => (0, 50)
  deviceGetPerformanceState := fun _ => (0, 0)
  deviceGetPciInfo := fun _ => (0, mockPci)
  deviceGetPersistenceMode := fun _ => (0, 1)
  deviceGetDisplayActive := fun _ => (0, 0)
  deviceGetComputeMode := fun _ => (0, 0)
  deviceGetMigMode := fun _ => (0, 0, 0)
  deviceGetTotalEccErrors := fun _ _ _ => (0, 0)
  deviceGetComputeRunningProcesses := fun _ => (0, 0, [])
  deviceGetGraphicsRunningProcesses := fun _ => (0, 0, [])
  systemGetDriverVersion := (0, "535.154.05")
  systemGetNvmlVersion := (0, "12.535.154.05")
  systemGetCudaDriverVersion_v2 := (0, 12040)
  systemGetProcessName := fun _ => (0, "/usr/bin/python3")

/-- The device handle the mock oracle hands out, at index 0. -/
def d0 : Device := ⟨7, 0⟩

/-- Variant of the mock oracle reporting 1500 mW of power draw. -/
def natMilli : Native := { natMock with deviceGetPowerUsage := fun _ => (0, 1500) }

/-- Expected `getBasicInfo` value at the mock oracle (the rational GiB
field is kept in the unevaluated shape `getBasicInfo` produces). -/
def basicInfoX : GpuBasicInfo :=
  ⟨0, "NVIDIA Mock GPU", 8589934592 / (1024 * 1024),
    (jsRound (((8589934592 / (1024 * 1024) : Nat) : ℚ) / 1024 * 10) : ℚ) / 10⟩

/-- Oracle whose native init and shutdown entry points fail. -/
def natLifeFail : Native := { natMock with init := 5, shutdown := 7 }

/-- Oracle whose driver-version query fails with code 999. -/
def natSysBad : Native := { natMock with systemGetDriverVersion := (999, "") }

/-- Oracle whose handle-by-index query fails with code 6 (not found). -/
def natIdxBad : Native :=
  { natMock with deviceGetHandleByIndex := fun _ => (6, none) }

/-- Oracle where every device query reports code 3 (not supported). -/
def natNS3 : Native :=
  { natMock with
    deviceGetName := fun _ => (3, "")
    deviceGetUUID := fun _ => (3, "")
    deviceGetMemoryInfo := fun _ => (3, ⟨0, 0, 0⟩)
    deviceGetUtilizationRates := fun _ => (3, ⟨0, 0⟩)
    deviceGetTemperature := fun _ _ => (3, 0)
    deviceGetPowerUsage := fun _ => (3, 0)
    deviceGetPowerManagementLimit := fun _ => (3, 0)
    deviceGetFanSpeed := fun _ => (3, 0)
    deviceGetPerformanceState := fun _ => (3, 0)
    deviceGetPciInfo := fun _ => (3, mockPci)
    deviceGetPersistenceMode := fun _ => (3, 0)
    deviceGetDisplayActive := fun _ => (3, 0)
    deviceGetComputeMode := fun _ => (3, 0)
    deviceGetMigMode := fun _ => (3, 0, 0)
    deviceGetTotalEccErrors := fun _ _ _ => (3, 0) }

/-- Oracle where every device query reports code 999 (unknown error). -/
def natBad : Native :=
  { natMock with
    deviceGetCount := (999, 0)
    deviceGetName := fun _ => (999, "")
    deviceGetUUID := fun _ => (999, "")
    deviceGetMemoryInfo := fun _ => (999, ⟨0, 0, 0⟩)
    deviceGetUtilizationRates := fun _ => (999, ⟨0, 0⟩)
    deviceGetTemperature := fun _ _ => (999, 0)
    deviceGetPowerUsage := fun _ => (999, 0)
    deviceGetPowerManagementLimit := fun _ => (999, 0)
    deviceGetFanSpeed := fun _ => (999, 0)
    deviceGetPerformanceState := fun _ => (999, 0)
    deviceGetPciInfo := fun _ => (999, mockPci)
    deviceGetPersistenceMode := fun _ => (999, 0)
    deviceGetDisplayActive := fun _ => (999, 0)
    deviceGetComputeMode := fun _ => (999, 0)
    deviceGetMigMode := fun _ => (999, 0, 0)
    deviceGetTotalEccErrors := fun _ _ _ => (999, 0) }

/-- Binding-layer state after one load and one resolution of the
device-count symbol: library handle 0, callable bound to handle 0. -/
def s1X : BindingState := ⟨some 0, some "libnvidia-ml.so.1", 1, some 0, none⟩

/-- Marshalled compute-process list the oracle yields for a handle. -/
def computeListOf (native : Native) (handle : Nat) : List RawProcessInfo :=
  marshalProcessList (native.deviceGetComputeRunningProcesses handle).2.1
    (native.deviceGetComputeRunningProcesses handle).2.2

/-- Marshalled graphics-process list the oracle yields for a handle. -/
def graphicsListOf (native : Native) (handle : Nat) : List RawProcessInfo :=
  marshalProcessList (native.deviceGetGraphicsRunningProcesses handle).2.1
    (native.deviceGetGraphicsRunningProcesses handle).2.2

/-- First-occurrence deduplication by pid relative to an already-seen
set: the pure content of the `getProcesses` loop. -/
def firstDedup (seenPids : List Nat) : List RawProcessInfo → List RawProcessInfo
  | [] => []
  | r :: rest =>
    if r.pid ∈ seenPids then firstDedup seenPids rest
    else r :: firstDedup (r.pid :: seenPids) rest

/-- Oracle with two compute processes (1234, 5678) and two graphics
processes (9999 and the duplicate 1234); the name lookup fails for 9999. -/
def natProc : Native :=
  { natMock with
    deviceGetComputeRunningProcesses := fun _ =>
      (0, 2, [⟨1234, 536870912, 0, 0⟩, ⟨5678, 1073741824, 0, 0⟩])
    deviceGetGraphicsRunningProcesses := fun _ =>
      (0, 2, [⟨9999, 268435456, 0, 0⟩, ⟨1234, 1, 0, 0⟩])
    systemGetProcessName := fun pid =>
      if pid == 9999 then (6, "")
      else if pid == 5678 then (0, "/opt/cuda/bin/cuda-app")
      else (0, "/usr/bin/python3") }

/-- Timestamp extractor for a snapshot outcome (for stating concrete
facts about a successful run without spelling the whole snapshot). -/
def snapshotTimestampOf : Except TsError (Result SystemSnapshot) → Option Nat
  | .ok (.ok s) => some s.timestamp
  | _ => none

/-- Driver info the mock oracle produces. -/
def driverX : DriverInfo := ⟨"535.154.05", "12.535.154.05", "12.4"⟩

/-- GPU status the mock oracle produces (rational fields kept in the
unevaluated shape `getStatus` builds). -/
def gpuStatusX : GpuStatus :=
  ⟨0, "NVIDIA Mock GPU", true, "00000000:00:1E.0", false, some 0, some 50, 55, 0,
    ((150000 : Nat) : ℚ) / 1000, ((300000 : Nat) : ℚ) / 1000, 2048, 8192, 45, 25, 0,
    some false⟩

/-- Full call log of `getSystemSnapshot` at the mock oracle: 23 native
calls, the process-enumeration calls last. -/
def logFullX : Log :=
  ["nvmlSystemGetDriverVersion", "nvmlSystemGetNVMLVersion",
   "nvmlSystemGetCudaDriverVersion_v2", "nvmlDeviceGetCount_v2",
   "nvmlDeviceGetHandleByIndex_v2", "nvmlDeviceGetName",
   "nvmlDeviceGetPersistenceMode", "nvmlDeviceGetPciInfo_v3",
   "nvmlDeviceGetDisplayActive", "nvmlDeviceGetTotalEccErrors",
   "nvmlDeviceGetFanSpeed", "nvmlDeviceGetTemperature",
   "nvmlDeviceGetPerformanceState", "nvmlDeviceGetPowerUsage",
   "nvmlDeviceGetPowerManagementLimit", "nvmlDeviceGetMemoryInfo",
   "nvmlDeviceGetUtilizationRates", "nvmlDeviceGetComputeMode",
   "nvmlDeviceGetMigMode", "nvmlDeviceGetCount_v2",
   "nvmlDeviceGetHandleByIndex_v2", "nvmlDeviceGetComputeRunningProcesses_v3",
   "nvmlDeviceGetGraphicsRunningProcesses_v3"]

/-- Snapshot the mock oracle produces: timestamp 23, stamped after the
23rd (last) native call. -/
def snapX : SystemSnapshot := ⟨23, driverX, [gpuStatusX], []⟩

/-- Per-stage return code for `natStage`: stage `k` fails with 999. -/
def stageRet (k i : Nat) : Nat := if i = k then 999 else 0

/-- Oracle whose `getStatus` field-query sequence fails exactly at stage
`k` (0 = name, 1 = persistence, 2 = pci, 3 = display, 4 = ecc, 5 = fan,
6 = temperature, 7 = pstate, 8 = power, 9 = power limit, 10 = memory,
11 = utilization, 12 = compute mode, 13 = mig). -/
def natStage (k : Nat) : Native :=
  { natMock with
    deviceGetName := fun _ => (stageRet k 0, "NVIDIA Mock GPU")
    deviceGetPersistenceMode := fun _ => (stageRet k 1, 1)
    deviceGetPciInfo := fun _ => (stageRet k 2, mockPci)
    deviceGetDisplayActive := fun _ => (stageRet k 3, 0)
    deviceGetTotalEccErrors := fun _ _ _ => (stageRet k 4, 0)
    deviceGetFanSpeed := fun _ => (stageRet k 5, 50)
    deviceGetTemperature := fun _ _ => (stageRet k 6, 55)
    deviceGetPerformanceState := fun _ => (stageRet k 7, 0)
    deviceGetPowerUsage := fun _ => (stageRet k 8, 150000)
    deviceGetPowerManagementLimit := fun _ => (stageRet k 9, 300000)
    deviceGetMemoryInfo := fun _ => (stageRet k 10, ⟨8589934592, 6442450944, 2147483648⟩)
    deviceGetUtilizationRates := fun _ => (stageRet k 11, ⟨45, 25⟩)
    deviceGetComputeMode := fun _ => (stageRet k 12, 0)
    deviceGetMigMode := fun _ => (stageRet k 13, 0, 0) }

/-! Claim theorems. -/

/-- Helper: a successful `getBasicInfo` carries the raw 64-bit byte total
divided (exact integer division) by 1048576. -/
theorem getBasicInfo_ok_total (native : Native) (d : Device) (log : Log)
    (info : GpuBasicInfo) (l2 : Log)
    (h : Device.getBasicInfo native d log = (.ok info, l2)) :
    info.memoryTotalMiB = (native.deviceGetMemoryInfo d.handle).2.total / 1048576 := by
  unfold Device.getBasicInfo at h
  split at h
  · simp at h
  · rename_i name l1 hname
    split at h
    · simp at h
    · rename_i memory l2x hmem
      simp only [Prod.mk.injEq, Result.ok.injEq] at h
      obtain ⟨h1, -⟩ := h
      subst h1
      unfold Device.getMemoryInfo at hmem
      simp only [nvmlDeviceGetMemoryInfo] at hmem
      split at hmem
      · simp only [Prod.mk.injEq, Result.ok.injEq] at hmem
        obtain ⟨h2, -⟩ := hmem
        subst h2
        rfl
      · simp at hmem

/-- Counterexample to C1 as stated: at an oracle whose native device-count
query returns the nonzero status 999 — an expected failure mode — the
public `Nvml.getDeviceCount` raises an `NvmlError` exception instead of
returning a failure Result. -/
theorem spec_C1_cex :
    (Nvml.getDeviceCount natBad true []).1
      = .error (.nvml (NvmlError.fromReturn 999 "Failed to get device count")) := rfl

/-- C1 (amended): `Device` instance queries and the Result-returning
system queries surface nonzero native codes as Result failures without
raising; but the namespace-level entry points (`getDeviceCount`,
`getDevice`, `getDeviceByUUID`, like `init`/`shutdown`) raise `NvmlError`
for nonzero native status, and malformed arguments raise a plain `Error`
before any native call. -/
theorem spec_C1 :
    (∀ (native : Native) (d : Device) (log : Log),
        (native.deviceGetName d.handle).1 ≠ 0 →
        Device.getName native d log
          = (.err (NvmlError.fromReturn (native.deviceGetName d.handle).1
              "Failed to get device name"), log ++ ["nvmlDeviceGetName"]))
    ∧ (∀ (native : Native) (log : Log),
        native.systemGetDriverVersion.1 ≠ 0 →
        Nvml.getDriverVersion native true log
          = (.ok (.err (NvmlError.fromReturn native.systemGetDriverVersion.1
              "Failed to get driver version")), log ++ ["nvmlSystemGetDriverVersion"]))
    ∧ (∀ (native : Native) (log : Log),
        native.deviceGetCount.1 ≠ 0 →
        Nvml.getDeviceCount native true log
          = (.error (.nvml (NvmlError.fromReturn native.deviceGetCount.1
              "Failed to get device count")), log ++ ["nvmlDeviceGetCount_v2"]))
    ∧ (∀ (native : Native) (log : Log) (index : Int),
        index < 0 →
        Nvml.getDevice native true index log
          = (.error (.generic
              ("Invalid device index: expected non-negative integer, got " ++ toString index)),
            log))
    ∧ (∀ (native : Native) (log : Log) (uuid : String),
        (jsTrim uuid).length = 0 →
        Nvml.getDeviceByUUID native true uuid log
          = (.error (.generic "Invalid device UUID: expected non-empty string"), log))
    ∧ (∀ (native : Native) (log : Log) (index : Int),
        0 ≤ index →
        (native.deviceGetHandleByIndex index.toNat).1 ≠ 0 →
        Nvml.getDevice native true index log
          = (.error (.nvml (NvmlError.fromReturn (native.deviceGetHandleByIndex index.toNat).1
              ("Failed to get device at index " ++ toString index))),
            log ++ ["nvmlDeviceGetHandleByIndex_v2"])) := by
  refine ⟨?_, ?_, ?_, ?_, ?_, ?_⟩
  · intro native d log h
    simp [Device.getName, nvmlDeviceGetName, isSuccess, h]
  · intro native log h
    simp [Nvml.getDriverVersion, Nvml.ensureInitialized, nvmlSystemGetDriverVersion,
      isSuccess, h]
  · intro native log h
    simp [Nvml.getDeviceCount, Nvml.ensureInitialized, nvmlDeviceGetCount, isSuccess, h]
  · intro native log index h
    simp [Nvml.getDevice, Nvml.ensureInitialized, Device.getByIndex, h]
  · intro native log uuid h
    simp [Nvml.getDeviceByUUID, Nvml.ensureInitialized, Device.getByUUID, h]
  · intro native log index h0 h
    have hneg : ¬ index < 0 := not_lt.mpr h0
    simp only [Nvml.getDevice, Nvml.ensureInitialized, Device.getByIndex,
      nvmlDeviceGetHandleByIndex, hneg, if_true, if_false]
    split
    · rename_i heq
      rw [heq] at h
      simp only [ne_eq] at h
      simp [heq, isSuccess, h]
    · rename_i heq
      simp [heq]

/-- Witness for the amended C1 at failing oracles. -/
theorem spec_C1_witness :
    Device.getName natBad d0 []
      = (.err (NvmlError.fromReturn (natBad.deviceGetName d0.handle).1
          "Failed to get device name"), ["nvmlDeviceGetName"])
    ∧ Nvml.getDriverVersion natSysBad true []
      = (.ok (.err (NvmlError.fromReturn natSysBad.systemGetDriverVersion.1
          "Failed to get driver version")), ["nvmlSystemGetDriverVersion"])
    ∧ Nvml.getDeviceCount natBad true []
      = (.error (.nvml (NvmlError.fromReturn natBad.deviceGetCount.1
          "Failed to get device count")), ["nvmlDeviceGetCount_v2"])
    ∧ Nvml.getDevice natMock true (-1) []
      = (.error (.generic
          ("Invalid device index: expected non-negative integer, got " ++ toString (-1 : Int))),
        [])
    ∧ Nvml.getDeviceByUUID natMock true "" []
      = (.error (.generic "Invalid device UUID: expected non-empty string"), [])
    ∧ Nvml.getDevice natIdxBad true 0 []
      = (.error (.nvml (NvmlError.fromReturn (natIdxBad.deviceGetHandleByIndex (0 : Int).toNat).1
          ("Failed to get device at index " ++ toString (0 : Int)))),
        ["nvmlDeviceGetHandleByIndex_v2"]) := by
  obtain ⟨p1, p2, p3, p4, p5, p6⟩ := spec_C1
  exact ⟨p1 natBad d0 [] (by decide), p2 natSysBad [] (by decide),
    p3 natBad [] (by decide), p4 natMock [] (-1) (by decide),
    p5 natMock [] "" (by decide), p6 natIdxBad [] 0 (by decide) (by decide)⟩

/-- C2: the lifecycle state machine.  `isInitialized` is false before any
`init`; a successful native init makes it true and a successful shutdown
makes it false again; a failing native init or shutdown throws the native
code wrapped in context and leaves the state unchanged; and, while the
state is false, every gated operation fails with the distinguished
uninitialized error without any native call (the log is unchanged and the
outcome is the same for every oracle). -/
theorem spec_C2 :
    Nvml.isInitialized initialState = false
    ∧ (∀ (native : Native) (state : Bool) (log : Log),
        native.init = 0 →
        Nvml.init native state log = ((.ok (), true), log ++ ["nvmlInit_v2"]))
    ∧ (∀ (native : Native) (state : Bool) (log : Log),
        native.init ≠ 0 →
        Nvml.init native state log
          = ((.error (.nvml (NvmlError.fromReturn native.init "Failed to initialize NVML")),
              state), log ++ ["nvmlInit_v2"]))
    ∧ (∀ (native : Native) (state : Bool) (log : Log),
        native.shutdown = 0 →
        Nvml.shutdown native state log = ((.ok (), false), log ++ ["nvmlShutdown"]))
    ∧ (∀ (native : Native) (state : Bool) (log : Log),
        native.shutdown ≠ 0 →
        Nvml.shutdown native state log
          = ((.error (.nvml (NvmlError.fromReturn native.shutdown "Failed to shutdown NVML")),
              state), log ++ ["nvmlShutdown"]))
    ∧ (∀ (native : Native) (log : Log),
        Nvml.getDeviceCount native false log = (.error uninitializedError, log)
        ∧ (∀ index : Int, Nvml.getDevice native false index log
            = (.error uninitializedError, log))
        ∧ (∀ uuid : String, Nvml.getDeviceByUUID native false uuid log
            = (.error uninitializedError, log))
        ∧ Nvml.getAllDevices native false log = (.error uninitializedError, log)
        ∧ Nvml.getDriverInfo native false log = (.error uninitializedError, log)
        ∧ Nvml.getDriverVersion native false log = (.error uninitializedError, log)
        ∧ Nvml.getNvmlVersion native false log = (.error uninitializedError, log)
        ∧ Nvml.getCudaVersion native false log = (.error uninitializedError, log)
        ∧ Nvml.getAllGpuStatus native false log = (.error uninitializedError, log)
        ∧ Nvml.getSystemSnapshot native false log = (.error uninitializedError, log)) := by
  refine ⟨rfl, ?_, ?_, ?_, ?_, ?_⟩
  · intro native state log h
    simp [Nvml.init, nvmlInit, isSuccess, h]
  · intro native state log h
    simp [Nvml.init, nvmlInit, isSuccess, h]
  · intro native state log h
    simp [Nvml.shutdown, nvmlShutdown, isSuccess, h]
  · intro native state log h
    simp [Nvml.shutdown, nvmlShutdown, isSuccess, h]
  · intro native log
    exact ⟨rfl, fun _ => rfl, fun _ => rfl, rfl, rfl, rfl, rfl, rfl, rfl, rfl⟩

/-- Witness for C2 at the healthy mock oracle and a failing variant. -/
theorem spec_C2_witness :
    Nvml.isInitialized initialState = false
    ∧ Nvml.init natMock false [] = ((.ok (), true), ["nvmlInit_v2"])
    ∧ Nvml.init natLifeFail false []
      = ((.error (.nvml (NvmlError.fromReturn natLifeFail.init "Failed to initialize NVML")),
          false), ["nvmlInit_v2"])
    ∧ Nvml.shutdown natMock true [] = ((.ok (), false), ["nvmlShutdown"])
    ∧ Nvml.shutdown natLifeFail true []
      = ((.error (.nvml (NvmlError.fromReturn natLifeFail.shutdown "Failed to shutdown NVML")),
          true), ["nvmlShutdown"])
    ∧ Nvml.getDeviceCount natMock false [] = (.error uninitializedError, []) := by
  obtain ⟨p1, p2, p3, p4, p5, p6⟩ := spec_C2
  exact ⟨p1, p2 natMock false [] rfl, p3 natLifeFail false [] (by decide),
    p4 natMock true [] rfl, p5 natLifeFail true [] (by decide),
    (p6 natMock []).1⟩

/-- Counterexample to C3 as stated: resolve the device-count symbol
(bound to library handle 0), then `unloadLibrary` (`release()`).  The
cached binding is not cleared: the next use returns the callable still
bound to handle 0 without re-acquiring the library, although a fresh
acquire would produce the distinct handle 1. -/
theorem spec_C3_cex :
    getDeviceGetCount (some "libnvidia-ml.so.1") freshBindingState = .ok (0, s1X)
    ∧ (unloadLibrary s1X).deviceGetCountBinding = some 0
    ∧ getDeviceGetCount (some "libnvidia-ml.so.1") (unloadLibrary s1X)
      = .ok (0, unloadLibrary s1X)
    ∧ getLibrary (some "libnvidia-ml.so.1") (unloadLibrary s1X)
      = .ok (1, ⟨some 1, some "libnvidia-ml.so.1", 2, some 0, none⟩)
    ∧ (0 : Nat) ≠ 1 :=
  ⟨rfl, rfl, rfl, rfl, by decide⟩

/-- C3 (amended): bindings are cached per signature; `release()`
(`unloadLibrary`) clears only the library handle and path and never
invalidates a cached binding, so after `release()` an already-resolved
operation keeps returning the callable bound to the previous library
without re-acquiring, and only a not-yet-resolved symbol binds against a
freshly acquired library. -/
theorem spec_C3 :
    (∀ (s : BindingState) (findPath : Option String) (c : Nat),
        s.deviceGetCountBinding = some c →
        getDeviceGetCount findPath s = .ok (c, s))
    ∧ (∀ s : BindingState,
        (unloadLibrary s).lib = none
        ∧ (unloadLibrary s).libraryPath = none
        ∧ (unloadLibrary s).deviceGetCountBinding = s.deviceGetCountBinding
        ∧ (unloadLibrary s).deviceGetNameBinding = s.deviceGetNameBinding)
    ∧ (∀ (s : BindingState) (findPath : Option String) (c : Nat),
        s.deviceGetCountBinding = some c →
        getDeviceGetCount findPath (unloadLibrary s) = .ok (c, unloadLibrary s))
    ∧ (∀ (s : BindingState) (path : String),
        s.deviceGetCountBinding = none →
        getDeviceGetCount (some path) (unloadLibrary s)
          = .ok (s.loadCount,
              { s with lib := some s.loadCount, libraryPath := some path,
                       loadCount := s.loadCount + 1,
                       deviceGetCountBinding := some s.loadCount })) := by
  refine ⟨?_, fun s => ⟨rfl, rfl, rfl, rfl⟩, ?_, ?_⟩
  · intro s findPath c h
    simp [getDeviceGetCount, h]
  · intro s findPath c h
    simp [getDeviceGetCount, unloadLibrary, h]
  · intro s path h
    simp [getDeviceGetCount, getLibrary, unloadLibrary, h]

/-- Witness for the amended C3 at the concrete one-resolution state. -/
theorem spec_C3_witness :
    getDeviceGetCount (some "libnvidia-ml.so.1") s1X = .ok (0, s1X)
    ∧ ((unloadLibrary s1X).lib = none
        ∧ (unloadLibrary s1X).libraryPath = none
        ∧ (unloadLibrary s1X).deviceGetCountBinding = s1X.deviceGetCountBinding
        ∧ (unloadLibrary s1X).deviceGetNameBinding = s1X.deviceGetNameBinding)
    ∧ getDeviceGetCount (some "libnvidia-ml.so.1") (unloadLibrary s1X)
      = .ok (0, unloadLibrary s1X)
    ∧ getDeviceGetCount (some "p") (unloadLibrary freshBindingState)
      = .ok (freshBindingState.loadCount,
          { freshBindingState with
              lib := some freshBindingState.loadCount, libraryPath := some "p",
              loadCount := freshBindingState.loadCount + 1,
              deviceGetCountBinding := some freshBindingState.loadCount }) := by
  obtain ⟨p1, p2, p3, p4⟩ := spec_C3
  exact ⟨p1 s1X (some "libnvidia-ml.so.1") 0 rfl, p2 s1X,
    p3 s1X (some "libnvidia-ml.so.1") 0 rfl, p4 freshBindingState "p" rfl⟩

/-- C4: exactly the three optional queries (fan speed, MIG mode,
corrected ECC count) turn the not-supported code 3 into a success with an
absent value; every other nonzero code on them is a failure with the
query's own context, and code 3 on every other device query is an
ordinary failure. -/
theorem spec_C4 :
    (∀ (native : Native) (d : Device) (log : Log),
        (native.deviceGetFanSpeed d.handle).1 = 3 →
        Device.getFanSpeed native d log = (.ok none, log ++ ["nvmlDeviceGetFanSpeed"]))
    ∧ (∀ (native : Native) (d : Device) (log : Log),
        (native.deviceGetFanSpeed d.handle).1 ≠ 0 →
        (native.deviceGetFanSpeed d.handle).1 ≠ 3 →
        Device.getFanSpeed native d log
          = (.err (NvmlError.fromReturn (native.deviceGetFanSpeed d.handle).1
              "Failed to get fan speed"), log ++ ["nvmlDeviceGetFanSpeed"]))
    ∧ (∀ (native : Native) (d : Device) (log : Log),
        (native.deviceGetMigMode d.handle).1 = 3 →
        Device.getMigMode native d log = (.ok none, log ++ ["nvmlDeviceGetMigMode"]))
    ∧ (∀ (native : Native) (d : Device) (log : Log),
        (native.deviceGetMigMode d.handle).1 ≠ 0 →
        (native.deviceGetMigMode d.handle).1 ≠ 3 →
        Device.getMigMode native d log
          = (.err (NvmlError.fromReturn (native.deviceGetMigMode d.handle).1
              "Failed to get MIG mode"), log ++ ["nvmlDeviceGetMigMode"]))
    ∧ (∀ (native : Native) (d : Device) (log : Log),
        (native.deviceGetTotalEccErrors d.handle 0 0).1 = 3 →
        Device.getEccErrorsCorrected native d log
          = (.ok none, log ++ ["nvmlDeviceGetTotalEccErrors"]))
    ∧ (∀ (native : Native) (d : Device) (log : Log),
        (native.deviceGetTotalEccErrors d.handle 0 0).1 ≠ 0 →
        (native.deviceGetTotalEccErrors d.handle 0 0).1 ≠ 3 →
        Device.getEccErrorsCorrected native d log
          = (.err (NvmlError.fromReturn (native.deviceGetTotalEccErrors d.handle 0 0).1
              "Failed to get ECC errors"), log ++ ["nvmlDeviceGetTotalEccErrors"]))
    ∧ (∀ (native : Native) (d : Device) (log : Log),
        (native.deviceGetPersistenceMode d.handle).1 = 3 →
        Device.getPersistenceMode native d log
          = (.err (NvmlError.fromReturn 3 "Failed to get persistence mode"),
              log ++ ["nvmlDeviceGetPersistenceMode"]))
    ∧ (∀ (native : Native) (d : Device) (log : Log),
        (native.deviceGetTemperature d.handle 0).1 = 3 →
        Device.getTemperature native d log
          = (.err (NvmlError.fromReturn 3 "Failed to get temperature"),
              log ++ ["nvmlDeviceGetTemperature"]))
    ∧ (∀ (native : Native) (d : Device) (log : Log),
        (native.deviceGetName d.handle).1 = 3 →
        Device.getName native d log
          = (.err (NvmlError.fromReturn 3 "Failed to get device name"),
              log ++ ["nvmlDeviceGetName"]))
    ∧ (∀ (native : Native) (d : Device) (log : Log),
        (native.deviceGetUUID d.handle).1 = 3 →
        Device.getUUID native d log
          = (.err (NvmlError.fromReturn 3 "Failed to get device UUID"),
              log ++ ["nvmlDeviceGetUUID"]))
    ∧ (∀ (native : Native) (d : Device) (log : Log),
        (native.deviceGetMemoryInfo d.handle).1 = 3 →
        Device.getMemoryInfo native d log
          = (.err (NvmlError.fromReturn 3 "Failed to get memory info"),
              log ++ ["nvmlDeviceGetMemoryInfo"]))
    ∧ (∀ (native : Native) (d : Device) (log : Log),
        (native.deviceGetUtilizationRates d.handle).1 = 3 →
        Device.getUtilizationRates native d log
          = (.err (NvmlError.fromReturn 3 "Failed to get utilization rates"),
              log ++ ["nvmlDeviceGetUtilizationRates"]))
    ∧ (∀ (native : Native) (d : Device) (log : Log),
        (native.deviceGetPowerUsage d.handle).1 = 3 →
        Device.getPowerUsage native d log
          = (.err (NvmlError.fromReturn 3 "Failed to get power usage"),
              log ++ ["nvmlDeviceGetPowerUsage"]))
    ∧ (∀ (native : Native) (d : Device) (log : Log),
        (native.deviceGetPowerManagementLimit d.handle).1 = 3 →
        Device.getPowerLimit native d log
          = (.err (NvmlError.fromReturn 3 "Failed to get power limit"),
              log ++ ["nvmlDeviceGetPowerManagementLimit"]))
    ∧ (∀ (native : Native) (d : Device) (log : Log),
        (native.deviceGetPerformanceState d.handle).1 = 3 →
        Device.getPerformanceState native d log
          = (.err (NvmlError.fromReturn 3 "Failed to get performance state"),
              log ++ ["nvmlDeviceGetPerformanceState"]))
    ∧ (∀ (native : Native) (d : Device) (log : Log),
        (native.deviceGetPciInfo d.handle).1 = 3 →
        Device.getPciInfo native d log
          = (.err (NvmlError.fromReturn 3 "Failed to get PCI info"),
              log ++ ["nvmlDeviceGetPciInfo_v3"]))
    ∧ (∀ (native : Native) (d : Device) (log : Log),
        (native.deviceGetDisplayActive d.handle).1 = 3 →
        Device.getDisplayActive native d log
          = (.err (NvmlError.fromReturn 3 "Failed to get display active status"),
              log ++ ["nvmlDeviceGetDisplayActive"]))
    ∧ (∀ (native : Native) (d : Device) (log : Log),
        (native.deviceGetComputeMode d.handle).1 = 3 →
        Device.getComputeMode native d log
          = (.err (NvmlError.fromReturn 3 "Failed to get compute mode"),
              log ++ ["nvmlDeviceGetComputeMode"])) := by
  refine ⟨?_, ?_, ?_, ?_, ?_, ?_, ?_, ?_, ?_, ?_, ?_, ?_, ?_, ?_, ?_, ?_, ?_, ?_⟩
  · intro native d log h
    simp [Device.getFanSpeed, nvmlDeviceGetFanSpeed, ERROR_NOT_SUPPORTED, isSuccess, h]
  · intro native d log h1 h2
    simp [Device.getFanSpeed, nvmlDeviceGetFanSpeed, ERROR_NOT_SUPPORTED, isSuccess, h1, h2]
  · intro native d log h
    simp [Device.getMigMode, nvmlDeviceGetMigMode, ERROR_NOT_SUPPORTED, isSuccess, h]
  · intro native d log h1 h2
    simp [Device.getMigMode, nvmlDeviceGetMigMode, ERROR_NOT_SUPPORTED, isSuccess, h1, h2]
  · intro native d log h
    simp [Device.getEccErrorsCorrected, nvmlDeviceGetTotalEccErrors, ERROR_NOT_SUPPORTED,
      isSuccess, h]
  · intro native d log h1 h2
    simp [Device.getEccErrorsCorrected, nvmlDeviceGetTotalEccErrors, ERROR_NOT_SUPPORTED,
      isSuccess, h1, h2]
  · intro native d log h
    simp [Device.getPersistenceMode, nvmlDeviceGetPersistenceMode, isSuccess, h]
  · intro native d log h
    simp [Device.getTemperature, nvmlDeviceGetTemperature, isSuccess, h]
  · intro native d log h
    simp [Device.getName, nvmlDeviceGetName, isSuccess, h]
  · intro native d log h
    simp [Device.getUUID, nvmlDeviceGetUUID, isSuccess, h]
  · intro native d log h
    simp [Device.getMemoryInfo, nvmlDeviceGetMemoryInfo, isSuccess, h]
  · intro native d log h
    simp [Device.getUtilizationRates, nvmlDeviceGetUtilizationRates, isSuccess, h]
  · intro native d log h
    simp [Device.getPowerUsage, nvmlDeviceGetPowerUsage, isSuccess, h]
  · intro native d log h
    simp [Device.getPowerLimit, nvmlDeviceGetPowerManagementLimit, isSuccess, h]
  · intro native d log h
    simp [Device.getPerformanceState, nvmlDeviceGetPerformanceState, isSuccess, h]
  · intro native d log h
    simp [Device.getPciInfo, nvmlDeviceGetPciInfo, isSuccess, h]
  · intro native d log h
    simp [Device.getDisplayActive, nvmlDeviceGetDisplayActive, isSuccess, h]
  · intro native d log h
    simp [Device.getComputeMode, nvmlDeviceGetComputeMode, isSuccess, h]

/-- Witness for C4 at oracles reporting code 3 everywhere and code 999
everywhere. -/
theorem spec_C4_witness :
    Device.getFanSpeed natNS3 d0 [] = (.ok none, ["nvmlDeviceGetFanSpeed"])
    ∧ Device.getFanSpeed natBad d0 []
      = (.err (NvmlError.fromReturn (natBad.deviceGetFanSpeed d0.handle).1
          "Failed to get fan speed"), ["nvmlDeviceGetFanSpeed"])
    ∧ Device.getMigMode natNS3 d0 [] = (.ok none, ["nvmlDeviceGetMigMode"])
    ∧ Device.getMigMode natBad d0 []
      = (.err (NvmlError.fromReturn (natBad.deviceGetMigMode d0.handle).1
          "Failed to get MIG mode"), ["nvmlDeviceGetMigMode"])
    ∧ Device.getEccErrorsCorrected natNS3 d0 []
      = (.ok none, ["nvmlDeviceGetTotalEccErrors"])
    ∧ Device.getEccErrorsCorrected natBad d0 []
      = (.err (NvmlError.fromReturn (natBad.deviceGetTotalEccErrors d0.handle 0 0).1
          "Failed to get ECC errors"), ["nvmlDeviceGetTotalEccErrors"])
    ∧ Device.getPersistenceMode natNS3 d0 []
      = (.err (NvmlError.fromReturn 3 "Failed to get persistence mode"),
          ["nvmlDeviceGetPersistenceMode"])
    ∧ Device.getTemperature natNS3 d0 []
      = (.err (NvmlError.fromReturn 3 "Failed to get temperature"),
          ["nvmlDeviceGetTemperature"])
    ∧ Device.getName natNS3 d0 []
      = (.err (NvmlError.fromReturn 3 "Failed to get device name"),
          ["nvmlDeviceGetName"])
    ∧ Device.getUUID natNS3 d0 []
      = (.err (NvmlError.fromReturn 3 "Failed to get device UUID"),
          ["nvmlDeviceGetUUID"])
    ∧ Device.getMemoryInfo natNS3 d0 []
      = (.err (NvmlError.fromReturn 3 "Failed to get memory info"),
          ["nvmlDeviceGetMemoryInfo"])
    ∧ Device.getUtilizationRates natNS3 d0 []
      = (.err (NvmlError.fromReturn 3 "Failed to get utilization rates"),
          ["nvmlDeviceGetUtilizationRates"])
    ∧ Device.getPowerUsage natNS3 d0 []
      = (.err (NvmlError.fromReturn 3 "Failed to get power usage"),
          ["nvmlDeviceGetPowerUsage"])
    ∧ Device.getPowerLimit natNS3 d0 []
      = (.err (NvmlError.fromReturn 3 "Failed to get power limit"),
          ["nvmlDeviceGetPowerManagementLimit"])
    ∧ Device.getPerformanceState natNS3 d0 []
      = (.err (NvmlError.fromReturn 3 "Failed to get performance state"),
          ["nvmlDeviceGetPerformanceState"])
    ∧ Device.getPciInfo natNS3 d0 []
      = (.err (NvmlError.fromReturn 3 "Failed to get PCI info"),
          ["nvmlDeviceGetPciInfo_v3"])
    ∧ Device.getDisplayActive natNS3 d0 []
      = (.err (NvmlError.fromReturn 3 "Failed to get display active status"),
          ["nvmlDeviceGetDisplayActive"])
    ∧ Device.getComputeMode natNS3 d0 []
      = (.err (NvmlError.fromReturn 3 "Failed to get compute mode"),
          ["nvmlDeviceGetComputeMode"]) := by
  obtain ⟨p1, p2, p3, p4, p5, p6, p7, p8, p9, p10, p11, p12, p13, p14, p15, p16, p17, p18⟩ :=
    spec_C4
  exact ⟨p1 natNS3 d0 [] rfl, p2 natBad d0 [] (by decide) (by decide),
    p3 natNS3 d0 [] rfl, p4 natBad d0 [] (by decide) (by decide),
    p5 natNS3 d0 [] rfl, p6 natBad d0 [] (by decide) (by decide),
    p7 natNS3 d0 [] rfl, p8 natNS3 d0 [] rfl, p9 natNS3 d0 [] rfl,
    p10 natNS3 d0 [] rfl, p11 natNS3 d0 [] rfl, p12 natNS3 d0 [] rfl,
    p13 natNS3 d0 [] rfl, p14 natNS3 d0 [] rfl, p15 natNS3 d0 [] rfl,
    p16 natNS3 d0 [] rfl, p17 natNS3 d0 [] rfl, p18 natNS3 d0 [] rfl⟩

/-- Counterexample to C5 as stated: at the mock oracle the snapshot's
timestamp is the clock reading 23 (after all 23 native calls), while
process enumeration begins at clock 21 (21 calls precede the first
process-enumeration call).  A timestamp taken before process enumeration
would read at most 21; the stamp therefore happens after process
enumeration, not before it. -/
theorem spec_C5_cex :
    snapshotTimestampOf (Nvml.getSystemSnapshot natMock true []).1 = some 23
    ∧ ((Nvml.getSystemSnapshot natMock true []).2.takeWhile
        (fun s => s != "nvmlDeviceGetComputeRunningProcesses_v3")).length = 21
    ∧ ¬ (23 ≤ 21) :=
  ⟨rfl, rfl, by decide⟩

/-- C5 (amended): `getSystemSnapshot` stamps its capture timestamp
exactly once, and the stamp is taken after process enumeration completes
— it equals the clock reading at the end of the whole run (the length of
the final call log), immediately before the snapshot object is returned. -/
theorem spec_C5 (native : Native) (state : Bool) (log : Log)
    (snap : SystemSnapshot) (l2 : Log)
    (h : Nvml.getSystemSnapshot native state log = (.ok (.ok snap), l2)) :
    snap.timestamp = l2.length := by
  unfold Nvml.getSystemSnapshot at h
  simp only [nvmlDeviceGetCount] at h
  split at h
  · simp at h
  · rcases hd : Nvml.getDriverInfo native state log with ⟨ee | dv | de, ld⟩
    · rw [hd] at h
      simp at h
    · rw [hd] at h
      simp only [] at h
      rcases hg : Nvml.getAllGpuStatus native state ld with ⟨ge | gv | gerr, lg⟩
      · rw [hg] at h
        simp at h
      · rw [hg] at h
        simp only [] at h
        split at h
        · rcases hp : snapshotProcessLoop native (List.range native.deviceGetCount.2)
              (lg ++ ["nvmlDeviceGetCount_v2"]) with ⟨pe | pv | perr, lp⟩
          · rw [hp] at h
            simp at h
          · rw [hp] at h
            simp only [Prod.mk.injEq, Except.ok.injEq, Result.ok.injEq] at h
            obtain ⟨h1, h2⟩ := h
            subst h2
            subst h1
            rfl
          · rw [hp] at h
            simp at h
        · simp at h
      · rw [hg] at h
        simp at h
    · rw [hd] at h
      simp at h

/-- Witness for the amended C5 at the mock oracle. -/
theorem spec_C5_witness : snapX.timestamp = logFullX.length :=
  spec_C5 natMock true [] snapX logFullX rfl

/-- C6: the composite methods short-circuit.  When a field query in the
fixed sequence fails after all earlier ones succeeded, `getBasicInfo` and
`getStatus` return that query's failure verbatim (the same error object,
with its original context) and the call log stops at the failing query:
no further field query is invoked. -/
theorem spec_C6 :
    (∀ (native : Native) (d : Device) (log : Log) (e : NvmlError) (lf : Log),
        Device.getName native d log = (.err e, lf) →
        Device.getBasicInfo native d log = (.err e, lf))
    ∧ (∀ (native : Native) (d : Device) (log : Log) (v1 : String) (l1 : Log)
        (e : NvmlError) (lf : Log),
        Device.getName native d log = (.ok v1, l1) →
        Device.getMemoryInfo native d l1 = (.err e, lf) →
        Device.getBasicInfo native d log = (.err e, lf))
    ∧ (∀ (native : Native) (d : Device) (log : Log) (e : NvmlError) (lf : Log),
        Device.getName native d log = (.err e, lf) →
        Device.getStatus native d log = (.err e, lf))
    ∧ (∀ (native : Native) (d : Device) (log : Log) (v1 : String) (l1 : Log) (e : NvmlError) (lf : Log),
        Device.getName native d log = (.ok v1, l1) →
        Device.getPersistenceMode native d l1 = (.err e, lf) →
        Device.getStatus native d log = (.err e, lf))
    ∧ (∀ (native : Native) (d : Device) (log : Log) (v1 : String) (l1 : Log) (v2 : Bool) (l2 : Log) (e : NvmlError) (lf : Log),
        Device.getName native d log = (.ok v1, l1) →
        Device.getPersistenceMode native d l1 = (.ok v2, l2) →
        Device.getPciInfo native d l2 = (.err e, lf) →
        Device.getStatus native d log = (.err e, lf))
    ∧ (∀ (native : Native) (d : Device) (log : Log) (v1 : String) (l1 : Log) (v2 : Bool) (l2 : Log) (v3 : PciInfo) (l3 : Log) (e : NvmlError) (lf : Log),
        Device.getName native d log = (.ok v1, l1) →
        Device.getPersistenceMode native d l1 = (.ok v2, l2) →
        Device.getPciInfo native d l2 = (.ok v3, l3) →
        Device.getDisplayActive native d l3 = (.err e, lf) →
        Device.getStatus native d log = (.err e, lf))
    ∧ (∀ (native : Native) (d : Device) (log : Log) (v1 : String) (l1 : Log) (v2 : Bool) (l2 : Log) (v3 : PciInfo) (l3 : Log) (v4 : Bool) (l4 : Log) (e : NvmlError) (lf : Log),
        Device.getName native d log = (.ok v1, l1) →
        Device.getPersistenceMode native d l1 = (.ok v2, l2) →
        Device.getPciInfo native d l2 = (.ok v3, l3) →
        Device.getDisplayActive native d l3 = (.ok v4, l4) →
        Device.getEccErrorsCorrected native d l4 = (.err e, lf) →
        Device.getStatus native d log = (.err e, lf))
    ∧ (∀ (native : Native) (d : Device) (log : Log) (v1 : String) (l1 : Log) (v2 : Bool) (l2 : Log) (v3 : PciInfo) (l3 : Log) (v4 : Bool) (l4 : Log) (v5 : Option Nat) (l5 : Log) (e : NvmlError) (lf : Log),
        Device.getName native d log = (.ok v1, l1) →
        Device.getPersistenceMode native d l1 = (.ok v2, l2) →
        Device.getPciInfo native d l2 = (.ok v3, l3) →
        Device.getDisplayActive native d l3 = (.ok v4, l4) →
        Device.getEccErrorsCorrected native d l4 = (.ok v5, l5) →
        Device.getFanSpeed native d l5 = (.err e, lf) →
        Device.getStatus native d log = (.err e, lf))
    ∧ (∀ (native : Native) (d : Device) (log : Log) (v1 : String) (l1 : Log) (v2 : Bool) (l2 : Log) (v3 : PciInfo) (l3 : Log) (v4 : Bool) (l4 : Log) (v5 : Option Nat) (l5 : Log) (v6 : Option Nat) (l6 : Log) (e : NvmlError) (lf : Log),
        Device.getName native d log = (.ok v1, l1) →
        Device.getPersistenceMode native d l1 = (.ok v2, l2) →
        Device.getPciInfo native d l2 = (.ok v3, l3) →
        Device.getDisplayActive native d l3 = (.ok v4, l4) →
        Device.getEccErrorsCorrected native d l4 = (.ok v5, l5) →
        Device.getFanSpeed native d l5 = (.ok v6, l6) →
        Device.getTemperature native d l6 = (.err e, lf) →
        Device.getStatus native d log = (.err e, lf))
    ∧ (∀ (native : Native) (d : Device) (log : Log) (v1 : String) (l1 : Log) (v2 : Bool) (l2 : Log) (v3 : PciInfo) (l3 : Log) (v4 : Bool) (l4 : Log) (v5 : Option Nat) (l5 : Log) (v6 : Option Nat) (l6 : Log) (v7 : Nat) (l7 : Log) (e : NvmlError) (lf : Log),
        Device.getName native d log = (.ok v1, l1) →
        Device.getPersistenceMode native d l1 = (.ok v2, l2) →
        Device.getPciInfo native d l2 = (.ok v3, l3) →
        Device.getDisplayActive native d l3 = (.ok v4, l4) →
        Device.getEccErrorsCorrected native d l4 = (.ok v5, l5) →
        Device.getFanSpeed native d l5 = (.ok v6, l6) →
        Device.getTemperature native d l6 = (.ok v7, l7) →
        Device.getPerformanceState native d l7 = (.err e, lf) →
        Device.getStatus native d log = (.err e, lf))
    ∧ (∀ (native : Native) (d : Device) (log : Log) (v1 : String) (l1 : Log) (v2 : Bool) (l2 : Log) (v3 : PciInfo) (l3 : Log) (v4 : Bool) (l4 : Log) (v5 : Option Nat) (l5 : Log) (v6 : Option Nat) (l6 : Log) (v7 : Nat) (l7 : Log) (v8 : Nat) (l8 : Log) (e : NvmlError) (lf : Log),
        Device.getName native d log = (.ok v1, l1) →
        Device.getPersistenceMode native d l1 = (.ok v2, l2) →
        Device.getPciInfo native d l2 = (.ok v3, l3) →
        Device.getDisplayActive native d l3 = (.ok v4, l4) →
        Device.getEccErrorsCorrected native d l4 = (.ok v5, l5) →
        Device.getFanSpeed native d l5 = (.ok v6, l6) →
        Device.getTemperature native d l6 = (.ok v7, l7) →
        Device.getPerformanceState native d l7 = (.ok v8, l8) →
        Device.getPowerUsage native d l8 = (.err e, lf) →
        Device.getStatus native d log = (.err e, lf))
    ∧ (∀ (native : Native) (d : Device) (log : Log) (v1 : String) (l1 : Log) (v2 : Bool) (l2 : Log) (v3 : PciInfo) (l3 : Log) (v4 : Bool) (l4 : Log) (v5 : Option Nat) (l5 : Log) (v6 : Option Nat) (l6 : Log) (v7 : Nat) (l7 : Log) (v8 : Nat) (l8 : Log) (v9 : ℚ) (l9 : Log) (e : NvmlError) (lf : Log),
        Device.getName native d log = (.ok v1, l1) →
        Device.getPersistenceMode native d l1 = (.ok v2, l2) →
        Device.getPciInfo native d l2 = (.ok v3, l3) →
        Device.getDisplayActive native d l3 = (.ok v4, l4) →
        Device.getEccErrorsCorrected native d l4 = (.ok v5, l5) →
        Device.getFanSpeed native d l5 = (.ok v6, l6) →
        Device.getTemperature native d l6 = (.ok v7, l7) →
        Device.getPerformanceState native d l7 = (.ok v8, l8) →
        Device.getPowerUsage native d l8 = (.ok v9, l9) →
        Device.getPowerLimit native d l9 = (.err e, lf) →
        Device.getStatus native d log = (.err e, lf))
    ∧ (∀ (native : Native) (d : Device) (log : Log) (v1 : String) (l1 : Log) (v2 : Bool) (l2 : Log) (v3 : PciInfo) (l3 : Log) (v4 : Bool) (l4 : Log) (v5 : Option Nat) (l5 : Log) (v6 : Option Nat) (l6 : Log) (v7 : Nat) (l7 : Log) (v8 : Nat) (l8 : Log) (v9 : ℚ) (l9 : Log) (v10 : ℚ) (l10 : Log) (e : NvmlError) (lf : Log),
        Device.getName native d log = (.ok v1, l1) →
        Device.getPersistenceMode native d l1 = (.ok v2, l2) →
        Device.getPciInfo native d l2 = (.ok v3, l3) →
        Device.getDisplayActive native d l3 = (.ok v4, l4) →
        Device.getEccErrorsCorrected native d l4 = (.ok v5, l5) →
        Device.getFanSpeed native d l5 = (.ok v6, l6) →
        Device.getTemperature native d l6 = (.ok v7, l7) →
        Device.getPerformanceState native d l7 = (.ok v8, l8) →
        Device.getPowerUsage native d l8 = (.ok v9, l9) →
        Device.getPowerLimit native d l9 = (.ok v10, l10) →
        Device.getMemoryInfo native d l10 = (.err e, lf) →
        Device.getStatus native d log = (.err e, lf))
    ∧ (∀ (native : Native) (d : Device) (log : Log) (v1 : String) (l1 : Log) (v2 : Bool) (l2 : Log) (v3 : PciInfo) (l3 : Log) (v4 : Bool) (l4 : Log) (v5 : Option Nat) (l5 : Log) (v6 : Option Nat) (l6 : Log) (v7 : Nat) (l7 : Log) (v8 : Nat) (l8 : Log) (v9 : ℚ) (l9 : Log) (v10 : ℚ) (l10 : Log) (v11 : MemoryInfo) (l11 : Log) (e : NvmlError) (lf : Log),
        Device.getName native d log = (.ok v1, l1) →
        Device.getPersistenceMode native d l1 = (.ok v2, l2) →
        Device.getPciInfo native d l2 = (.ok v3, l3) →
        Device.getDisplayActive native d l3 = (.ok v4, l4) →
        Device.getEccErrorsCorrected native d l4 = (.ok v5, l5) →
        Device.getFanSpeed native d l5 = (.ok v6, l6) →
        Device.getTemperature native d l6 = (.ok v7, l7) →
        Device.getPerformanceState native d l7 = (.ok v8, l8) →
        Device.getPowerUsage native d l8 = (.ok v9, l9) →
        Device.getPowerLimit native d l9 = (.ok v10, l10) →
        Device.getMemoryInfo native d l10 = (.ok v11, l11) →
        Device.getUtilizationRates native d l11 = (.err e, lf) →
        Device.getStatus native d log = (.err e, lf))
    ∧ (∀ (native : Native) (d : Device) (log : Log) (v1 : String) (l1 : Log) (v2 : Bool) (l2 : Log) (v3 : PciInfo) (l3 : Log) (v4 : Bool) (l4 : Log) (v5 : Option Nat) (l5 : Log) (v6 : Option Nat) (l6 : Log) (v7 : Nat) (l7 : Log) (v8 : Nat) (l8 : Log) (v9 : ℚ) (l9 : Log) (v10 : ℚ) (l10 : Log) (v11 : MemoryInfo) (l11 : Log) (v12 : UtilizationRates) (l12 : Log) (e : NvmlError) (lf : Log),
        Device.getName native d log = (.ok v1, l1) →
        Device.getPersistenceMode native d l1 = (.ok v2, l2) →
        Device.getPciInfo native d l2 = (.ok v3, l3) →
        Device.getDisplayActive native d l3 = (.ok v4, l4) →
        Device.getEccErrorsCorrected native d l4 = (.ok v5, l5) →
        Device.getFanSpeed native d l5 = (.ok v6, l6) →
        Device.getTemperature native d l6 = (.ok v7, l7) →
        Device.getPerformanceState native d l7 = (.ok v8, l8) →
        Device.getPowerUsage native d l8 = (.ok v9, l9) →
        Device.getPowerLimit native d l9 = (.ok v10, l10) →
        Device.getMemoryInfo native d l10 = (.ok v11, l11) →
        Device.getUtilizationRates native d l11 = (.ok v12, l12) →
        Device.getComputeMode native d l12 = (.err e, lf) →
        Device.getStatus native d log = (.err e, lf))
    ∧ (∀ (native : Native) (d : Device) (log : Log) (v1 : String) (l1 : Log) (v2 : Bool) (l2 : Log) (v3 : PciInfo) (l3 : Log) (v4 : Bool) (l4 : Log) (v5 : Option Nat) (l5 : Log) (v6 : Option Nat) (l6 : Log) (v7 : Nat) (l7 : Log) (v8 : Nat) (l8 : Log) (v9 : ℚ) (l9 : Log) (v10 : ℚ) (l10 : Log) (v11 : MemoryInfo) (l11 : Log) (v12 : UtilizationRates) (l12 : Log) (v13 : Nat) (l13 : Log) (e : NvmlError) (lf : Log),
        Device.getName native d log = (.ok v1, l1) →
        Device.getPersistenceMode native d l1 = (.ok v2, l2) →
        Device.getPciInfo native d l2 = (.ok v3, l3) →
        Device.getDisplayActive native d l3 = (.ok v4, l4) →
        Device.getEccErrorsCorrected native d l4 = (.ok v5, l5) →
        Device.getFanSpeed native d l5 = (.ok v6, l6) →
        Device.getTemperature native d l6 = (.ok v7, l7) →
        Device.getPerformanceState native d l7 = (.ok v8, l8) →
        Device.getPowerUsage native d l8 = (.ok v9, l9) →
        Device.getPowerLimit native d l9 = (.ok v10, l10) →
        Device.getMemoryInfo native d l10 = (.ok v11, l11) →
        Device.getUtilizationRates native d l11 = (.ok v12, l12) →
        Device.getComputeMode native d l12 = (.ok v13, l13) →
        Device.getMigMode native d l13 = (.err e, lf) →
        Device.getStatus native d log = (.err e, lf)) := by
  refine ⟨?_, ?_, ?_, ?_, ?_, ?_, ?_, ?_, ?_, ?_, ?_, ?_, ?_, ?_, ?_, ?_⟩
  · intro native d log e lf h1
    simp only [Device.getBasicInfo, h1]
  · intro native d log v1 l1 e lf h1 h2
    simp only [Device.getBasicInfo, h1, h2]
  · intro native d log e lf h1
    simp only [Device.getStatus, h1]
  · intro native d log v1 l1 e lf h1 h2
    simp only [Device.getStatus, h1, h2]
  · intro native d log v1 l1 v2 l2 e lf h1 h2 h3
    simp only [Device.getStatus, h1, h2, h3]
  · intro native d log v1 l1 v2 l2 v3 l3 e lf h1 h2 h3 h4
    simp only [Device.getStatus, h1, h2, h3, h4]
  · intro native d log v1 l1 v2 l2 v3 l3 v4 l4 e lf h1 h2 h3 h4 h5
    simp only [Device.getStatus, h1, h2, h3, h4, h5]
  · intro native d log v1 l1 v2 l2 v3 l3 v4 l4 v5 l5 e lf h1 h2 h3 h4 h5 h6
    simp only [Device.getStatus, h1, h2, h3, h4, h5, h6]
  · intro native d log v1 l1 v2 l2 v3 l3 v4 l4 v5 l5 v6 l6 e lf h1 h2 h3 h4 h5 h6 h7
    simp only [Device.getStatus, h1, h2, h3, h4, h5, h6, h7]
  · intro native d log v1 l1 v2 l2 v3 l3 v4 l4 v5 l5 v6 l6 v7 l7 e lf h1 h2 h3 h4 h5 h6 h7 h8
    simp only [Device.getStatus, h1, h2, h3, h4, h5, h6, h7, h8]
  · intro native d log v1 l1 v2 l2 v3 l3 v4 l4 v5 l5 v6 l6 v7 l7 v8 l8 e lf h1 h2 h3 h4 h5 h6 h7 h8 h9
    simp only [Device.getStatus, h1, h2, h3, h4, h5, h6, h7, h8, h9]
  · intro native d log v1 l1 v2 l2 v3 l3 v4 l4 v5 l5 v6 l6 v7 l7 v8 l8 v9 l9 e lf h1 h2 h3 h4 h5 h6 h7 h8 h9 h10
    simp only [Device.getStatus, h1, h2, h3, h4, h5, h6, h7, h8, h9, h10]
  · intro native d log v1 l1 v2 l2 v3 l3 v4 l4 v5 l5 v6 l6 v7 l7 v8 l8 v9 l9 v10 l10 e lf h1 h2 h3 h4 h5 h6 h7 h8 h9 h10 h11
    simp only [Device.getStatus, h1, h2, h3, h4, h5, h6, h7, h8, h9, h10, h11]
  · intro native d log v1 l1 v2 l2 v3 l3 v4 l4 v5 l5 v6 l6 v7 l7 v8 l8 v9 l9 v10 l10 v11 l11 e lf h1 h2 h3 h4 h5 h6 h7 h8 h9 h10 h11 h12
    simp only [Device.getStatus, h1, h2, h3, h4, h5, h6, h7, h8, h9, h10, h11, h12]
  · intro native d log v1 l1 v2 l2 v3 l3 v4 l4 v5 l5 v6 l6 v7 l7 v8 l8 v9 l9 v10 l10 v11 l11 v12 l12 e lf h1 h2 h3 h4 h5 h6 h7 h8 h9 h10 h11 h12 h13
    simp only [Device.getStatus, h1, h2, h3, h4, h5, h6, h7, h8, h9, h10, h11, h12, h13]
  · intro native d log v1 l1 v2 l2 v3 l3 v4 l4 v5 l5 v6 l6 v7 l7 v8 l8 v9 l9 v10 l10 v11 l11 v12 l12 v13 l13 e lf h1 h2 h3 h4 h5 h6 h7 h8 h9 h10 h11 h12 h13 h14
    simp only [Device.getStatus, h1, h2, h3, h4, h5, h6, h7, h8, h9, h10, h11, h12, h13, h14]

/-- Witness for C6: oracles failing at each stage of the sequence. -/
theorem spec_C6_witness :
    Device.getBasicInfo (natStage 0) d0 []
      = (.err (NvmlError.fromReturn 999 "Failed to get device name"), ["nvmlDeviceGetName"])
    ∧ Device.getBasicInfo (natStage 10) d0 []
      = (.err (NvmlError.fromReturn 999 "Failed to get memory info"),
          ["nvmlDeviceGetName", "nvmlDeviceGetMemoryInfo"])
    ∧ Device.getStatus (natStage 0) d0 []
      = (.err (NvmlError.fromReturn 999 "Failed to get device name"),
          ["nvmlDeviceGetName"])
    ∧ Device.getStatus (natStage 1) d0 []
      = (.err (NvmlError.fromReturn 999 "Failed to get persistence mode"),
          ["nvmlDeviceGetName", "nvmlDeviceGetPersistenceMode"])
    ∧ Device.getStatus (natStage 2) d0 []
      = (.err (NvmlError.fromReturn 999 "Failed to get PCI info"),
          ["nvmlDeviceGetName", "nvmlDeviceGetPersistenceMode", "nvmlDeviceGetPciInfo_v3"])
    ∧ Device.getStatus (natStage 3) d0 []
      = (.err (NvmlError.fromReturn 999 "Failed to get display active status"),
          ["nvmlDeviceGetName", "nvmlDeviceGetPersistenceMode", "nvmlDeviceGetPciInfo_v3", "nvmlDeviceGetDisplayActive"])
    ∧ Device.getStatus (natStage 4) d0 []
      = (.err (NvmlError.fromReturn 999 "Failed to get ECC errors"),
          ["nvmlDeviceGetName", "nvmlDeviceGetPersistenceMode", "nvmlDeviceGetPciInfo_v3", "nvmlDeviceGetDisplayActive", "nvmlDeviceGetTotalEccErrors"])
    ∧ Device.getStatus (natStage 5) d0 []
      = (.err (NvmlError.fromReturn 999 "Failed to get fan speed"),
          ["nvmlDeviceGetName", "nvmlDeviceGetPersistenceMode", "nvmlDeviceGetPciInfo_v3", "nvmlDeviceGetDisplayActive", "nvmlDeviceGetTotalEccErrors", "nvmlDeviceGetFanSpeed"])
    ∧ Device.getStatus (natStage 6) d0 []
      = (.err (NvmlError.fromReturn 999 "Failed to get temperature"),
          ["nvmlDeviceGetName", "nvmlDeviceGetPersistenceMode", "nvmlDeviceGetPciInfo_v3", "nvmlDeviceGetDisplayActive", "nvmlDeviceGetTotalEccErrors", "nvmlDeviceGetFanSpeed", "nvmlDeviceGetTemperature"])
    ∧ Device.getStatus (natStage 7) d0 []
      = (.err (NvmlError.fromReturn 999 "Failed to get performance state"),
          ["nvmlDeviceGetName", "nvmlDeviceGetPersistenceMode", "nvmlDeviceGetPciInfo_v3", "nvmlDeviceGetDisplayActive", "nvmlDeviceGetTotalEccErrors", "nvmlDeviceGetFanSpeed", "nvmlDeviceGetTemperature", "nvmlDeviceGetPerformanceState"])
    ∧ Device.getStatus (natStage 8) d0 []
      = (.err (NvmlError.fromReturn 999 "Failed to get power usage"),
          ["nvmlDeviceGetName", "nvmlDeviceGetPersistenceMode", "nvmlDeviceGetPciInfo_v3", "nvmlDeviceGetDisplayActive", "nvmlDeviceGetTotalEccErrors", "nvmlDeviceGetFanSpeed", "nvmlDeviceGetTemperature", "nvmlDeviceGetPerformanceState", "nvmlDeviceGetPowerUsage"])
    ∧ Device.getStatus (natStage 9) d0 []
      = (.err (NvmlError.fromReturn 999 "Failed to get power limit"),
          ["nvmlDeviceGetName", "nvmlDeviceGetPersistenceMode", "nvmlDeviceGetPciInfo_v3", "nvmlDeviceGetDisplayActive", "nvmlDeviceGetTotalEccErrors", "nvmlDeviceGetFanSpeed", "nvmlDeviceGetTemperature", "nvmlDeviceGetPerformanceState", "nvmlDeviceGetPowerUsage", "nvmlDeviceGetPowerManagementLimit"])
    ∧ Device.getStatus (natStage 10) d0 []
      = (.err (NvmlError.fromReturn 999 "Failed to get memory info"),
          ["nvmlDeviceGetName", "nvmlDeviceGetPersistenceMode", "nvmlDeviceGetPciInfo_v3", "nvmlDeviceGetDisplayActive", "nvmlDeviceGetTotalEccErrors", "nvmlDeviceGetFanSpeed", "nvmlDeviceGetTemperature", "nvmlDeviceGetPerformanceState", "nvmlDeviceGetPowerUsage", "nvmlDeviceGetPowerManagementLimit", "nvmlDeviceGetMemoryInfo"])
    ∧ Device.getStatus (natStage 11) d0 []
      = (.err (NvmlError.fromReturn 999 "Failed to get utilization rates"),
          ["nvmlDeviceGetName", "nvmlDeviceGetPersistenceMode", "nvmlDeviceGetPciInfo_v3", "nvmlDeviceGetDisplayActive", "nvmlDeviceGetTotalEccErrors", "nvmlDeviceGetFanSpeed", "nvmlDeviceGetTemperature", "nvmlDeviceGetPerformanceState", "nvmlDeviceGetPowerUsage", "nvmlDeviceGetPowerManagementLimit", "nvmlDeviceGetMemoryInfo", "nvmlDeviceGetUtilizationRates"])
    ∧ Device.getStatus (natStage 12) d0 []
      = (.err (NvmlError.fromReturn 999 "Failed to get compute mode"),
          ["nvmlDeviceGetName", "nvmlDeviceGetPersistenceMode", "nvmlDeviceGetPciInfo_v3", "nvmlDeviceGetDisplayActive", "nvmlDeviceGetTotalEccErrors", "nvmlDeviceGetFanSpeed", "nvmlDeviceGetTemperature", "nvmlDeviceGetPerformanceState", "nvmlDeviceGetPowerUsage", "nvmlDeviceGetPowerManagementLimit", "nvmlDeviceGetMemoryInfo", "nvmlDeviceGetUtilizationRates", "nvmlDeviceGetComputeMode"])
    ∧ Device.getStatus (natStage 13) d0 []
      = (.err (NvmlError.fromReturn 999 "Failed to get MIG mode"),
          ["nvmlDeviceGetName", "nvmlDeviceGetPersistenceMode", "nvmlDeviceGetPciInfo_v3", "nvmlDeviceGetDisplayActive", "nvmlDeviceGetTotalEccErrors", "nvmlDeviceGetFanSpeed", "nvmlDeviceGetTemperature", "nvmlDeviceGetPerformanceState", "nvmlDeviceGetPowerUsage", "nvmlDeviceGetPowerManagementLimit", "nvmlDeviceGetMemoryInfo", "nvmlDeviceGetUtilizationRates", "nvmlDeviceGetComputeMode", "nvmlDeviceGetMigMode"]) := by
  obtain ⟨b1, b2, q1, q2, q3, q4, q5, q6, q7, q8, q9, q10, q11, q12, q13, q14⟩ := spec_C6
  refine ⟨?_, ?_, ?_, ?_, ?_, ?_, ?_, ?_, ?_, ?_, ?_, ?_, ?_, ?_, ?_, ?_⟩
  · apply b1
    rfl
  · apply b2 <;> rfl
  · apply q1
    rfl
  · apply q2 <;> rfl
  · apply q3 <;> rfl
  · apply q4 <;> rfl
  · apply q5 <;> rfl
  · apply q6 <;> rfl
  · apply q7 <;> rfl
  · apply q8 <;> rfl
  · apply q9 <;> rfl
  · apply q10 <;> rfl
  · apply q11 <;> rfl
  · apply q12 <;> rfl
  · apply q13 <;> rfl
  · apply q14 <;> rfl

/-- Helper: the value component of the `getProcesses` loop is the
first-occurrence deduplication of the raw list, converted entrywise. -/
theorem processLoop_fst (native : Native) (gpuIndex : Int) :
    ∀ (raws : List RawProcessInfo) (seenPids : List Nat) (log : Log),
    (processLoop native gpuIndex seenPids raws log).1
      = (firstDedup seenPids raws).map (mkGpuProcess native gpuIndex) := by
  intro raws
  induction raws with
  | nil => intro seen log; rfl
  | cons r rest ih =>
    intro seen log
    by_cases hmem : r.pid ∈ seen
    · simp [processLoop, firstDedup, hmem, ih]
    · simp [processLoop, firstDedup, hmem, ih, mkGpuProcess, nvmlSystemGetProcessName]

/-- Helper: entries kept by `firstDedup` have pids outside the seen set. -/
theorem firstDedup_pid_not_seen :
    ∀ (l : List RawProcessInfo) (seen : List Nat) (r : RawProcessInfo),
      r ∈ firstDedup seen l → r.pid ∉ seen := by
  intro l
  induction l with
  | nil => intro seen r hr; simp [firstDedup] at hr
  | cons r0 rest ih =>
    intro seen r hr
    by_cases h0 : r0.pid ∈ seen
    · rw [firstDedup, if_pos h0] at hr
      exact ih seen r hr
    · rw [firstDedup, if_neg h0] at hr
      rcases List.mem_cons.mp hr with rfl | hr2
      · exact h0
      · intro hc
        exact ih (r0.pid :: seen) r hr2 (List.mem_cons_of_mem _ hc)

/-- Helper: `firstDedup` keeps only entries of the original list. -/
theorem firstDedup_subset :
    ∀ (l : List RawProcessInfo) (seen : List Nat) (r : RawProcessInfo),
      r ∈ firstDedup seen l → r ∈ l := by
  intro l
  induction l with
  | nil => intro seen r hr; simp [firstDedup] at hr
  | cons r0 rest ih =>
    intro seen r hr
    by_cases h0 : r0.pid ∈ seen
    · rw [firstDedup, if_pos h0] at hr
      exact List.mem_cons_of_mem _ (ih seen r hr)
    · rw [firstDedup, if_neg h0] at hr
      rcases List.mem_cons.mp hr with rfl | hr2
      · exact List.mem_cons_self _ _
      · exact List.mem_cons_of_mem _ (ih _ r hr2)

/-- Helper: a pid already seen never survives `firstDedup`. -/
theorem firstDedup_filter_seen :
    ∀ (l : List RawProcessInfo) (seen : List Nat) (p : Nat), p ∈ seen →
      (firstDedup seen l).filter (fun x => x.pid == p) = [] := by
  intro l seen p hp
  rw [List.filter_eq_nil_iff]
  intro r hr
  have := firstDedup_pid_not_seen l seen r hr
  simp only [beq_iff_eq]
  intro hc
  exact this (hc ▸ hp)

/-- Helper: for an unseen pid present in the list, the surviving entries
with that pid are exactly the singleton of its first occurrence. -/
theorem firstDedup_filter_eq :
    ∀ (l : List RawProcessInfo) (seen : List Nat) (p : Nat),
      p ∉ seen → p ∈ l.map (fun r => r.pid) →
      ∃ r, l.find? (fun x => x.pid == p) = some r
        ∧ (firstDedup seen l).filter (fun x => x.pid == p) = [r] := by
  intro l
  induction l with
  | nil => intro seen p hseen hmem; simp at hmem
  | cons r0 rest ih =>
    intro seen p hseen hmem
    by_cases hp : r0.pid = p
    · have h0 : r0.pid ∉ seen := by rw [hp]; exact hseen
      refine ⟨r0, ?_, ?_⟩
      · rw [List.find?_cons_of_pos]
        simp [hp]
      · rw [firstDedup, if_neg h0]
        rw [List.filter_cons_of_pos]
        · rw [firstDedup_filter_seen rest (r0.pid :: seen) p (by simp [hp])]
        · simp [hp]
    · have hmem2 : p ∈ rest.map (fun r => r.pid) := by
        rcases (by simpa using hmem : p = r0.pid ∨ ∃ a ∈ rest, a.pid = p) with h | ⟨a, ha, hap⟩
        · exact absurd h.symm hp
        · exact List.mem_map.mpr ⟨a, ha, hap⟩
      by_cases h0 : r0.pid ∈ seen
      · obtain ⟨r, hfind, hfilter⟩ := ih seen p hseen hmem2
        refine ⟨r, ?_, ?_⟩
        · rw [List.find?_cons_of_neg]
          · exact hfind
          · simp [hp]
        · rw [firstDedup, if_pos h0]
          exact hfilter
      · have hseen2 : p ∉ r0.pid :: seen := by
          intro hc
          rcases List.mem_cons.mp hc with h | h
          · exact hp h.symm
          · exact hseen h
        obtain ⟨r, hfind, hfilter⟩ := ih (r0.pid :: seen) p hseen2 hmem2
        refine ⟨r, ?_, ?_⟩
        · rw [List.find?_cons_of_neg]
          · exact hfind
          · simp [hp]
        · rw [firstDedup, if_neg h0]
          rw [List.filter_cons_of_neg]
          · exact hfilter
          · simp [hp]

/-- Helper: searching the concatenated list for a pid present in the
first list finds its first occurrence there. -/
theorem find?_append_first (l1 l2 : List RawProcessInfo) (p : Nat)
    (h : p ∈ l1.map (fun r => r.pid)) :
    (l1 ++ l2).find? (fun x => x.pid == p) = l1.find? (fun x => x.pid == p) := by
  rw [List.find?_append]
  obtain ⟨r, hr, hpid⟩ := List.mem_map.mp h
  have hsome : (l1.find? (fun x => x.pid == p)).isSome := by
    rw [List.find?_isSome]
    exact ⟨r, hr, by simp [hpid]⟩
  obtain ⟨v, hv⟩ := Option.isSome_iff_exists.mp hsome
  rw [hv]
  rfl

/-- C7: `getProcesses` deduplicates by pid across the compute list
followed by the graphics list.  A pid present in both lists yields
exactly one returned entry, converted from its first occurrence (which
the compute list holds); and every retained entry whose name lookup
fails carries the synthetic placeholder name instead of failing the
query. -/
theorem spec_C7 (native : Native) (d : Device) (log : Log)
    (ps : List GpuProcess) (l2 : Log)
    (h : Device.getProcesses native d log = (.ok ps, l2)) :
    (∀ p : Nat,
        p ∈ (computeListOf native d.handle).map (fun r => r.pid) →
        p ∈ (graphicsListOf native d.handle).map (fun r => r.pid) →
        ∃ r, (computeListOf native d.handle).find? (fun x => x.pid == p) = some r
          ∧ ps.filter (fun e => e.pid == p) = [mkGpuProcess native d.index r])
    ∧ (∀ e ∈ ps, (native.systemGetProcessName e.pid).1 ≠ 0 →
        e.processName = "pid:" ++ toString e.pid) := by
  have hps : ps = (firstDedup []
      (computeListOf native d.handle ++ graphicsListOf native d.handle)).map
        (mkGpuProcess native d.index) := by
    unfold Device.getProcesses at h
    simp only [nvmlDeviceGetComputeRunningProcesses,
      nvmlDeviceGetGraphicsRunningProcesses] at h
    split at h
    · split at h
      · simp only [Prod.mk.injEq, Result.ok.injEq] at h
        obtain ⟨h1, -⟩ := h
        rw [← h1, processLoop_fst native d.index]
        rfl
      · simp at h
    · simp at h
  constructor
  · intro p hpc hpg
    have hall : p ∈ (computeListOf native d.handle
        ++ graphicsListOf native d.handle).map (fun r => r.pid) := by
      rw [List.map_append]
      exact List.mem_append_left _ hpc
    obtain ⟨r, hfind, hfilter⟩ := firstDedup_filter_eq _ [] p (by simp) hall
    refine ⟨r, ?_, ?_⟩
    · rw [← find?_append_first _ (graphicsListOf native d.handle) p hpc]
      exact hfind
    · rw [hps, List.filter_map]
      have hcomp : ((fun e : GpuProcess => e.pid == p) ∘ mkGpuProcess native d.index)
          = fun x => x.pid == p := rfl
      rw [hcomp, hfilter]
      rfl
  · intro e he hfail
    rw [hps] at he
    obtain ⟨r, hr, rfl⟩ := List.mem_map.mp he
    have hfail2 : (native.systemGetProcessName r.pid).1 ≠ 0 := hfail
    simp [mkGpuProcess, isSuccess, hfail2]

/-- Witness for C7: the two-list oracle with the duplicate pid 1234 and
the failing name lookup for 9999. -/
theorem spec_C7_witness :
    (∀ p : Nat,
        p ∈ (computeListOf natProc d0.handle).map (fun r => r.pid) →
        p ∈ (graphicsListOf natProc d0.handle).map (fun r => r.pid) →
        ∃ r, (computeListOf natProc d0.handle).find? (fun x => x.pid == p) = some r
          ∧ ([⟨0, 1234, "/usr/bin/python3", 512⟩,
              ⟨0, 5678, "/opt/cuda/bin/cuda-app", 1024⟩,
              ⟨0, 9999, "pid:9999", 256⟩] : List GpuProcess).filter
                (fun e => e.pid == p)
            = [mkGpuProcess natProc d0.index r])
    ∧ (∀ e ∈ ([⟨0, 1234, "/usr/bin/python3", 512⟩,
          ⟨0, 5678, "/opt/cuda/bin/cuda-app", 1024⟩,
          ⟨0, 9999, "pid:9999", 256⟩] : List GpuProcess),
        (natProc.systemGetProcessName e.pid).1 ≠ 0 →
        e.processName = "pid:" ++ toString e.pid) :=
  spec_C7 natProc d0 []
    [⟨0, 1234, "/usr/bin/python3", 512⟩,
     ⟨0, 5678, "/opt/cuda/bin/cuda-app", 1024⟩,
     ⟨0, 9999, "pid:9999", 256⟩]
    ["nvmlDeviceGetComputeRunningProcesses_v3",
     "nvmlDeviceGetGraphicsRunningProcesses_v3",
     "nvmlSystemGetProcessName", "nvmlSystemGetProcessName",
     "nvmlSystemGetProcessName"] rfl

/-- C8: unit conversions are exact.  Milliwatt readings are divided by
1000 with exact non-truncating rational division (150000 mW gives exactly
150 W, 1500 mW gives 3/2 W, and multiplying the result back by 1000
recovers the raw reading); the 64-bit byte total is divided by 1048576
with exact integer division before narrowing (8·1024³ bytes gives exactly
8192 MiB); CUDA version integers decode as floor(v/1000) "." floor((v mod
1000)/10), so 12040 gives exactly "12.4". -/
theorem spec_C8 :
    (∀ (native : Native) (d : Device) (log : Log),
        (native.deviceGetPowerUsage d.handle).1 = 0 →
        (Device.getPowerUsage native d log).1
          = .ok (((native.deviceGetPowerUsage d.handle).2 : ℚ) / 1000))
    ∧ (∀ (native : Native) (d : Device) (log : Log) (q : ℚ),
        (Device.getPowerUsage native d log).1 = .ok q →
        q * 1000 = ((native.deviceGetPowerUsage d.handle).2 : ℚ))
    ∧ (∀ (native : Native) (d : Device) (log : Log),
        native.deviceGetPowerUsage d.handle = (0, 150000) →
        (Device.getPowerUsage native d log).1 = .ok 150)
    ∧ (∀ (native : Native) (d : Device) (log : Log),
        native.deviceGetPowerUsage d.handle = (0, 1500) →
        (Device.getPowerUsage native d log).1 = .ok (3 / 2))
    ∧ (∀ (native : Native) (d : Device) (log : Log),
        (native.deviceGetPowerManagementLimit d.handle).1 = 0 →
        (Device.getPowerLimit native d log).1
          = .ok (((native.deviceGetPowerManagementLimit d.handle).2 : ℚ) / 1000))
    ∧ (∀ (native : Native) (d : Device) (log : Log) (info : GpuBasicInfo) (l2 : Log),
        Device.getBasicInfo native d log = (.ok info, l2) →
        info.memoryTotalMiB = (native.deviceGetMemoryInfo d.handle).2.total / 1048576)
    ∧ (∀ (native : Native) (d : Device) (log : Log) (info : GpuBasicInfo) (l2 : Log),
        (native.deviceGetMemoryInfo d.handle).2.total = 8589934592 →
        Device.getBasicInfo native d log = (.ok info, l2) →
        info.memoryTotalMiB = 8192)
    ∧ (∀ v : Nat, cudaVersionToString v
        = toString (v / 1000) ++ "." ++ toString (v % 1000 / 10))
    ∧ (∀ (native : Native) (log : Log),
        native.systemGetCudaDriverVersion_v2 = (0, 12040) →
        (Nvml.getCudaVersion native true log).1 = .ok (.ok "12.4")) := by
  refine ⟨?_, ?_, ?_, ?_, ?_, ?_, ?_, ?_, ?_⟩
  · intro native d log h
    simp [Device.getPowerUsage, nvmlDeviceGetPowerUsage, isSuccess, h]
  · intro native d log q h
    unfold Device.getPowerUsage at h
    simp only [nvmlDeviceGetPowerUsage] at h
    split at h
    · simp only [Result.ok.injEq] at h
      subst h
      rw [div_mul_cancel₀]
      norm_num
    · simp at h
  · intro native d log h
    simp [Device.getPowerUsage, nvmlDeviceGetPowerUsage, isSuccess, h]
    norm_num
  · intro native d log h
    simp [Device.getPowerUsage, nvmlDeviceGetPowerUsage, isSuccess, h]
    norm_num
  · intro native d log h
    simp [Device.getPowerLimit, nvmlDeviceGetPowerManagementLimit, isSuccess, h]
  · intro native d log info l2 h
    exact getBasicInfo_ok_total native d log info l2 h
  · intro native d log info l2 htotal h
    rw [getBasicInfo_ok_total native d log info l2 h, htotal]
  · intro v
    rfl
  · intro native log h
    unfold Nvml.getCudaVersion Nvml.ensureInitialized
    simp only [nvmlSystemGetCudaDriverVersion_v2, h, if_true, isSuccess]
    rfl

/-- Witness for C8 at the mock oracle (and its 1500 mW variant). -/
theorem spec_C8_witness :
    (Device.getPowerUsage natMock d0 []).1
      = .ok (((natMock.deviceGetPowerUsage d0.handle).2 : ℚ) / 1000)
    ∧ ((natMock.deviceGetPowerUsage d0.handle).2 : ℚ) / 1000 * 1000
      = ((natMock.deviceGetPowerUsage d0.handle).2 : ℚ)
    ∧ (Device.getPowerUsage natMock d0 []).1 = .ok 150
    ∧ (Device.getPowerUsage natMilli d0 []).1 = .ok (3 / 2)
    ∧ (Device.getPowerLimit natMock d0 []).1
      = .ok (((natMock.deviceGetPowerManagementLimit d0.handle).2 : ℚ) / 1000)
    ∧ basicInfoX.memoryTotalMiB = (natMock.deviceGetMemoryInfo d0.handle).2.total / 1048576
    ∧ basicInfoX.memoryTotalMiB = 8192
    ∧ cudaVersionToString 12040 = toString (12040 / 1000) ++ "." ++ toString (12040 % 1000 / 10)
    ∧ (Nvml.getCudaVersion natMock true []).1 = .ok (.ok "12.4") := by
  obtain ⟨h1, h2, h3, h4, h5, h6, h7, h8, h9⟩ := spec_C8
  exact ⟨h1 natMock d0 [] rfl, h2 natMock d0 [] _ (h1 natMock d0 [] rfl),
    h3 natMock d0 [] rfl, h4 natMilli d0 [] rfl, h5 natMock d0 [] rfl,
    h6 natMock d0 [] basicInfoX ["nvmlDeviceGetName", "nvmlDeviceGetMemoryInfo"] rfl,
    h7 natMock d0 [] basicInfoX ["nvmlDeviceGetName", "nvmlDeviceGetMemoryInfo"] rfl rfl,
    h8 12040, h9 natMock [] rfl⟩

/-- C9: the Result combinators satisfy the functor/monad laws: `map` over
a success applies the function, `map` over a failure passes it through
with the function never invoked (the outcome is independent of the
function), `andThen` short-circuits failures without invoking the
continuation, and `andThen` of a success is the continuation's value. -/
theorem spec_C9 :
    (∀ (α β : Type) (x : α) (f : α → β), map (.ok x) f = .ok (f x))
    ∧ (∀ (α β : Type) (e : NvmlError) (f : α → β),
        map (Result.err e : Result α) f = .err e)
    ∧ (∀ (α β : Type) (e : NvmlError) (f g : α → β),
        map (Result.err e : Result α) f = map (Result.err e : Result α) g)
    ∧ (∀ (α β : Type) (e : NvmlError) (f : α → Result β),
        andThen (Result.err e : Result α) f = .err e)
    ∧ (∀ (α β : Type) (e : NvmlError) (f g : α → Result β),
        andThen (Result.err e : Result α) f = andThen (Result.err e : Result α) g)
    ∧ (∀ (α β : Type) (x : α) (f : α → Result β), andThen (.ok x) f = f x) :=
  ⟨fun _ _ _ _ => rfl, fun _ _ _ _ => rfl, fun _ _ _ _ _ => rfl,
    fun _ _ _ _ => rfl, fun _ _ _ _ _ => rfl, fun _ _ _ _ => rfl⟩

/-- C10: every successful `getPciInfo` result carries `function = 0`: the
field is a hardcoded constant, never populated from the native struct. -/
theorem spec_C10 (native : Native) (d : Device) (log : Log) (p : PciInfo)
    (l2 : Log) (h : Device.getPciInfo native d log = (.ok p, l2)) :
    p.function = 0 := by
  unfold Device.getPciInfo at h
  simp only [nvmlDeviceGetPciInfo] at h
  split at h
  · simp only [Prod.mk.injEq, Result.ok.injEq] at h
    obtain ⟨h1, -⟩ := h
    subst h1
    rfl
  · simp at h

/-- Witness for C10 at the mock oracle. -/
theorem spec_C10_witness :
    (PciInfo.mk "00000000:00:1E.0" 0 0 30 0 0x123456 0x789abc).function = 0 :=
  spec_C10 natMock d0 [] _ _ rfl

end TsNvml
